import Mathlib

/-!
Verification of the OAuth 2.1 authorization/token subsystem of mcp-pa.

This file gives a shallow embedding, in Lean 4, of the security-critical
core of the repository:

* `src/auth/pkce_verifier.py`   — PKCE challenge generation/verification
* `src/auth/token_manager.py`   — access/refresh token lifecycle
* `src/auth/oauth21_provider.py`— authorization-code / refresh-token grants
* `src/auth/client_registry.py` — dynamic client registration

Modelling conventions:

* Python `dict`s become association lists (`List (K × V)`) with `dget`,
  `dinsert` (preserves insertion order, like CPython) and `derase`.
* Wall-clock time (`datetime.now(timezone.utc)`) is passed explicitly as a
  `Nat` of Unix seconds; each operation reads one instant.
* Values produced by `secrets.token_urlsafe` / `uuid` (jtis, refresh
  tokens, authorization codes, client ids) are passed as explicit `String`
  arguments.
* Python truthiness on optional strings / lists (`if scope:`,
  `resource or self.issuer`) is modelled by `strTruthy` / `listTruthy`.
* JWT strings are modelled by the inductive `TokenStr`: `jwtTok key payload`
  stands for `jwt.encode(payload, key, algorithm="HS256")` (the encoding is
  injective and a verified decode succeeds exactly when the keys agree and
  the token is unexpired), `raw s` stands for any non-JWT string such as
  the opaque refresh tokens.  SHA-256 and base64url (used by PKCE) are
  implemented concretely below.
-/

/-! ## Association-list model of Python dicts -/

/-- Model of Python `d.get(k)` / `d[k]` lookup on a dict represented as an
association list (first matching key wins). -/
def dget {K V : Type} [DecidableEq K] : List (K × V) → K → Option V
  | [], _ => none
  | (k, v) :: rest, key => if k = key then some v else dget rest key

/-- Model of Python `d[k] = v`: replaces the value of an existing key in
place, otherwise appends, preserving CPython insertion order. -/
def dinsert {K V : Type} [DecidableEq K] (key : K) (v : V) : List (K × V) → List (K × V)
  | [] => [(key, v)]
  | (k, w) :: rest => if k = key then (key, v) :: rest else (k, w) :: dinsert key v rest

/-- Model of Python `del d[k]` (keys are unique in reachable states, so
removing every binding of `key` agrees with CPython). -/
def derase {K V : Type} [DecidableEq K] (key : K) : List (K × V) → List (K × V)
  | [] => []
  | (k, v) :: rest => if k = key then derase key rest else (k, v) :: derase key rest

/-- Decidable equality for `Except`, used to state results about the
fallible operations concretely. -/
instance {e a : Type} [DecidableEq e] [DecidableEq a] : DecidableEq (Except e a) := fun x y =>
  match x, y with
  | .ok u, .ok v =>
    if h : u = v then isTrue (by rw [h]) else isFalse (by intro hh; injection hh; contradiction)
  | .error u, .error v =>
    if h : u = v then isTrue (by rw [h]) else isFalse (by intro hh; injection hh; contradiction)
  | .ok _, .error _ => isFalse (by intro hh; injection hh)
  | .error _, .ok _ => isFalse (by intro hh; injection hh)

/-! ## Python truthiness helpers -/

/-- Truthiness of an optional Python string: `None` and `""` are falsy. -/
def strTruthy : Option String → Bool
  | none => false
  | some s => !(s == "")

/-- Truthiness of an optional Python list: `None` and `[]` are falsy. -/
def listTruthy {α : Type} : Option (List α) → Bool
  | none => false
  | some l => !(l.isEmpty)

/-- Python `a or b` on two optional strings (used for
`resource or auth_data["resource"]`). -/
def orOptStr (a b : Option String) : Option String :=
  if strTruthy a then a else b

/-- Python `a or b` where `b` is a plain string (used for
`resource or self.issuer`). -/
def orStr (a : Option String) (b : String) : String :=
  if strTruthy a then a.getD "" else b

/-! ## PKCE Verifier (`src/auth/pkce_verifier.py`)

`generate_code_challenge` for `S256` is `base64url(sha256(ascii verifier))`
with `=` padding stripped, so we embed SHA-256 (over byte lists, 32-bit
words as `Nat` reduced mod `2^32`) and base64url concretely. -/

/-- Reduce to a 32-bit word, modelling fixed-width arithmetic. -/
def w32 (x : Nat) : Nat := x % 4294967296

/-- 32-bit right rotation (input assumed `< 2^32`). -/
def rotr32 (n x : Nat) : Nat := w32 ((x >>> n) ||| (x <<< (32 - n)))

/-- SHA-256 round constants (FIPS 180-4). -/
def sha256K : List Nat :=
  [1116352408, 1899447441, 3049323471, 3921009573, 961987163, 1508970993, 2453635748,
   2870763221, 3624381080, 310598401, 607225278, 1426881987, 1925078388, 2162078206,
   2614888103, 3248222580, 3835390401, 4022224774, 264347078, 604807628, 770255983,
   1249150122, 1555081692, 1996064986, 2554220882, 2821834349, 2952996808, 3210313671,
   3336571891, 3584528711, 113926993, 338241895, 666307205, 773529912, 1294757372,
   1396182291, 1695183700, 1986661051, 2177026350, 2456956037, 2730485921, 2820302411,
   3259730800, 3345764771, 3516065817, 3600352804, 4094571909, 275423344, 430227734,
   506948616, 659060556, 883997877, 958139571, 1322822218, 1537002063, 1747873779,
   1955562222, 2024104815, 2227730452, 2361852424, 2428436474, 2756734187, 3204031479,
   3329325298]

/-- SHA-256 working state: eight 32-bit words. -/
structure Hash8 where
  a : Nat
  b : Nat
  c : Nat
  d : Nat
  e : Nat
  f : Nat
  g : Nat
  h : Nat
deriving DecidableEq, Repr

/-- SHA-256 initial hash value (FIPS 180-4). -/
def sha256Init : Hash8 :=
  ⟨1779033703, 3144134277, 1013904242, 2773480762, 1359893119, 2600822924, 528734635,
   1541459225⟩

/-- Extend a 16-word message block to the 64-word SHA-256 message schedule. -/
def sha256Schedule (block : List Nat) : List Nat :=
  (List.range 48).foldl
    (fun ws i =>
      let w15 := ws.getD (i + 1) 0
      let w2 := ws.getD (i + 14) 0
      let s0 := rotr32 7 w15 ^^^ rotr32 18 w15 ^^^ (w15 >>> 3)
      let s1 := rotr32 17 w2 ^^^ rotr32 19 w2 ^^^ (w2 >>> 10)
      ws ++ [w32 (ws.getD i 0 + s0 + ws.getD (i + 9) 0 + s1)])
    block

/-- One SHA-256 compression round. -/
def sha256Round (st : Hash8) (wk : Nat × Nat) : Hash8 :=
  let S1 := rotr32 6 st.e ^^^ rotr32 11 st.e ^^^ rotr32 25 st.e
  let ch := (st.e &&& st.f) ^^^ ((st.e ^^^ 4294967295) &&& st.g)
  let temp1 := w32 (st.h + S1 + ch + wk.2 + wk.1)
  let S0 := rotr32 2 st.a ^^^ rotr32 13 st.a ^^^ rotr32 22 st.a
  let maj := (st.a &&& st.b) ^^^ (st.a &&& st.c) ^^^ (st.b &&& st.c)
  let temp2 := w32 (S0 + maj)
  ⟨w32 (temp1 + temp2), st.a, st.b, st.c, w32 (st.d + temp1), st.e, st.f, st.g⟩

/-- Process one 16-word block. -/
def sha256Block (h0 : Hash8) (block : List Nat) : Hash8 :=
  let ws := sha256Schedule block
  let st := (ws.zip sha256K).foldl sha256Round h0
  ⟨w32 (h0.a + st.a), w32 (h0.b + st.b), w32 (h0.c + st.c), w32 (h0.d + st.d),
   w32 (h0.e + st.e), w32 (h0.f + st.f), w32 (h0.g + st.g), w32 (h0.h + st.h)⟩

/-- Big-endian byte expansion of a natural number into `len` bytes. -/
def natToBytesBE (n len : Nat) : List Nat :=
  (List.range len).map (fun i => (n >>> (8 * (len - 1 - i))) % 256)

/-- SHA-256 padding: append `0x80`, zero bytes, and the 64-bit big-endian
bit length, to a multiple of 64 bytes. -/
def sha256Pad (msg : List Nat) : List Nat :=
  let L := msg.length
  let padLen := (119 - L % 64) % 64
  msg ++ [128] ++ List.replicate padLen 0 ++ natToBytesBE (L * 8) 8

/-- Group a byte list into big-endian 32-bit words. -/
def bytesToWords : List Nat → List Nat
  | b1 :: b2 :: b3 :: b4 :: rest => (((b1 * 256 + b2) * 256 + b3) * 256 + b4) :: bytesToWords rest
  | _ => []

/-- Split a word list into 16-word chunks (fuel-driven so that the kernel
can evaluate it). -/
def wordChunksAux : Nat → List Nat → List (List Nat)
  | 0, _ => []
  | _, [] => []
  | n + 1, ws => ws.take 16 :: wordChunksAux n (ws.drop 16)

/-- Split a word list into 16-word chunks. -/
def wordChunks (ws : List Nat) : List (List Nat) := wordChunksAux ws.length ws

/-- SHA-256 digest of a byte list, as 32 bytes
(models `hashlib.sha256(...).digest()`). -/
def sha256 (msg : List Nat) : List Nat :=
  let blocks := wordChunks (bytesToWords (sha256Pad msg))
  let hh := blocks.foldl sha256Block sha256Init
  natToBytesBE hh.a 4 ++ natToBytesBE hh.b 4 ++ natToBytesBE hh.c 4 ++ natToBytesBE hh.d 4 ++
  natToBytesBE hh.e 4 ++ natToBytesBE hh.f 4 ++ natToBytesBE hh.g 4 ++ natToBytesBE hh.h 4

/-- The base64url alphabet (RFC 4648 §5). -/
def b64urlAlphabet : List Char :=
  "ABCDEFGHIJKLMNOPQRSTUVWXYZabcdefghijklmnopqrstuvwxyz0123456789-_".data

/-- Character for a 6-bit group. -/
def b64Char (n : Nat) : Char := b64urlAlphabet.getD n 'A'

/-- base64url encoding of a byte list with the `=` padding stripped
(models `base64.urlsafe_b64encode(d).decode().rstrip("=")`). -/
def b64encodeBytes : List Nat → List Char
  | [] => []
  | [b1] => [b64Char (b1 >>> 2), b64Char ((b1 % 4) <<< 4)]
  | [b1, b2] =>
    [b64Char (b1 >>> 2), b64Char (((b1 % 4) <<< 4) + (b2 >>> 4)), b64Char ((b2 % 16) <<< 2)]
  | b1 :: b2 :: b3 :: rest =>
    b64Char (b1 >>> 2) :: b64Char (((b1 % 4) <<< 4) + (b2 >>> 4)) ::
    b64Char (((b2 % 16) <<< 2) + (b3 >>> 6)) :: b64Char (b3 % 64) :: b64encodeBytes rest

/-- ASCII bytes of a string (models `s.encode("ascii")`; only ever applied
to validated verifiers, whose characters are ASCII). -/
def asciiBytes (s : String) : List Nat := s.data.map Char.toNat

namespace PKCEVerifier

/-- `PKCEVerifier.VALID_CHARS`: `string.ascii_letters + string.digits + "-._~"`. -/
def VALID_CHARS : List Char :=
  "abcdefghijklmnopqrstuvwxyzABCDEFGHIJKLMNOPQRSTUVWXYZ0123456789-._~".data

/-- PKCE error kinds (`PKCEError` raise sites in `pkce_verifier.py`). -/
inductive PKCEErr
  | emptyVerifier
  | badLength
  | badChars
  | unsupportedMethod
deriving DecidableEq, Repr

/-- `PKCEVerifier._validate_code_verifier`: rejects empty verifiers,
lengths outside 43–128, and characters outside `VALID_CHARS`. -/
def _validate_code_verifier (v : String) : Except PKCEErr Unit :=
  if v == "" then .error .emptyVerifier
  else if v.length < 43 || 128 < v.length then .error .badLength
  else if v.data.any (fun c => !(VALID_CHARS.contains c)) then .error .badChars
  else .ok ()

/-- `PKCEVerifier.generate_code_challenge`: validates the verifier, then
for `S256` returns `base64url(sha256(verifier))` without padding, for
`plain` the verifier itself; other methods raise `PKCEError`. -/
def generate_code_challenge (v : String) (method : String) : Except PKCEErr String :=
  match _validate_code_verifier v with
  | .error e => .error e
  | .ok _ =>
    if method == "S256" then .ok (String.mk (b64encodeBytes (sha256 (asciiBytes v))))
    else if method == "plain" then .ok v
    else .error .unsupportedMethod

/-- `PKCEVerifier.verify_code_challenge`: recomputes the expected challenge
and compares (`secrets.compare_digest` is equality; its constant-time
behaviour has no functional content).  The source wraps everything in
`try/except` returning `False`, so it is total and never raises. -/
def verify_code_challenge (code_verifier code_challenge : String) (method : String) : Bool :=
  match _validate_code_verifier code_verifier with
  | .error _ => false
  | .ok _ =>
    if code_challenge == "" then false
    else
      match generate_code_challenge code_verifier method with
      | .error _ => false
      | .ok expected => expected == code_challenge

end PKCEVerifier


/-! ## Token Manager (`src/auth/token_manager.py`) -/

/-- JWT payload built by `TokenManager.create_access_token`.  The `require`
claims `exp, iat, iss, sub, jti` are structurally present. -/
structure JwtPayload where
  iss : String
  sub : String
  aud : String
  client_id : String
  exp : Nat
  iat : Nat
  jti : String
  token_type : String
  scope : Option String := none
  resource : Option String := none
deriving DecidableEq, Repr

/-- A Python token string.  `jwtTok key payload` is
`jwt.encode(payload, key, algorithm="HS256")` (JWT encoding is injective,
and only strings produced by `jwt.encode` decode successfully); `raw s` is
any other string, e.g. the opaque refresh tokens from
`secrets.token_urlsafe`. -/
inductive TokenStr
  | jwtTok (key : String) (payload : JwtPayload)
  | raw (s : String)
deriving DecidableEq, Repr

/-- True for non-JWT strings (refresh tokens, garbage input). -/
def TokenStr.isRaw : TokenStr → Bool
  | .jwtTok _ _ => false
  | .raw _ => true

/-- `TokenContext` dataclass.  `metadata` only ever carries the `jti` (and
the constant algorithm name), modelled by the `jti` field. -/
structure TokenContext where
  access_token : TokenStr
  token_type : String := "Bearer"
  expires_in : Nat := 3600
  refresh_token : Option TokenStr := none
  scope : Option String := none
  resource : Option String := none
  client_id : String := ""
  user_id : String := ""
  issued_at : Nat
  jti : String
deriving DecidableEq, Repr

/-- Value stored in `TokenManager.refresh_tokens`. -/
structure RefreshData where
  client_id : String
  user_id : String
  access_token_jti : String
  expires_at : Nat
  created_at : Nat
  used : Bool
deriving DecidableEq, Repr

/-- Raise sites of `TokenError` in `token_manager.py` (each constructor is
one distinct message; `validate_access_token` re-wraps them in a
`Token validation failed:` prefix, which does not change the kind). -/
inductive TokenErr
  | invalidToken
  | invalidIssuer
  | invalidType
  | resourceMismatch
  | audienceMismatch
  | revokedToken
  | expiredToken
  | invalidRefreshToken
  | refreshReuse
  | refreshExpired
deriving DecidableEq, Repr

/-- The message `str(e)` carried by each `TokenError`, as the orchestrator
copies it into `OAuth21Error` descriptions. -/
def tokenErrMsg : TokenErr → String
  | .invalidToken => "Invalid token"
  | .invalidIssuer => "Invalid token issuer"
  | .invalidType => "Invalid token type"
  | .resourceMismatch => "Token not valid for requested resource"
  | .audienceMismatch => "Token audience mismatch"
  | .revokedToken => "Token not found or revoked"
  | .expiredToken => "Token has expired"
  | .invalidRefreshToken => "Invalid refresh token"
  | .refreshReuse => "Refresh token already used"
  | .refreshExpired => "Refresh token has expired"

/-- `TokenManager` instance state: configuration plus the two in-memory
stores `active_tokens` (jti → TokenContext) and `refresh_tokens`. -/
structure TMState where
  secret_key : String
  default_token_expiry : Nat := 3600
  refresh_token_expiry : Nat := 7200
  issuer : String := "mcp-personal-assistant"
  active_tokens : List (String × TokenContext) := []
  refresh_tokens : List (TokenStr × RefreshData) := []
deriving DecidableEq, Repr

/-- `jwt.decode(token, secret, algorithms=["HS256"], options={"require":
[...], "verify_exp": True, "verify_iat": True})`: succeeds iff the token
is a JWT signed with `secret` whose `exp` is in the future (PyJWT raises
`ExpiredSignatureError` when `exp <= now`); required claims are
structurally present in `JwtPayload`. -/
def jwtDecodeVerified (secret : String) (now : Nat) : TokenStr → Option JwtPayload
  | .jwtTok key payload => if key = secret ∧ now < payload.exp then some payload else none
  | .raw _ => none

namespace TokenManager

/-- `TokenManager.create_access_token`: clamps `expires_in` to ≤ 3600,
builds the JWT payload (audience is the resource indicator if truthy, else
the issuer; `scope`/`resource` claims added only if truthy), stores the
`TokenContext` under the fresh `jti`, and returns it. -/
def create_access_token (s : TMState) (now : Nat) (jti : String)
    (client_id user_id : String) (scope resource : Option String)
    (expires_in? : Option Nat) : TokenContext × TMState :=
  let expires_in := min (expires_in?.getD s.default_token_expiry) 3600
  let payload : JwtPayload :=
    { iss := s.issuer
      sub := user_id
      aud := orStr resource s.issuer
      client_id := client_id
      exp := now + expires_in
      iat := now
      jti := jti
      token_type := "access_token"
      scope := if strTruthy scope then scope else none
      resource := if strTruthy resource then resource else none }
  let ctx : TokenContext :=
    { access_token := TokenStr.jwtTok s.secret_key payload
      token_type := "Bearer"
      expires_in := expires_in
      refresh_token := none
      scope := scope
      resource := resource
      client_id := client_id
      user_id := user_id
      issued_at := now
      jti := jti }
  (ctx, { s with active_tokens := dinsert jti ctx s.active_tokens })

/-- `TokenManager.create_refresh_token`: stores the freshly generated
opaque string with client/user/linked-jti/expiry and `used = False`. -/
def create_refresh_token (s : TMState) (now : Nat) (tokenStr : String)
    (client_id user_id access_token_jti : String) : TokenStr × TMState :=
  let tok := TokenStr.raw tokenStr
  let data : RefreshData :=
    { client_id := client_id
      user_id := user_id
      access_token_jti := access_token_jti
      expires_at := now + s.refresh_token_expiry
      created_at := now
      used := false }
  (tok, { s with refresh_tokens := dinsert tok data s.refresh_tokens })

/-- `TokenManager.validate_access_token`: verified JWT decode, issuer and
token-type checks, optional resource/audience checks (skipped entirely
when `resource` is falsy, per `if resource:`), active-jti lookup, and a
second expiry check that deletes the stored entry when it fires. -/
def validate_access_token (s : TMState) (now : Nat) (token : TokenStr)
    (resource : Option String) : Except TokenErr TokenContext × TMState :=
  match jwtDecodeVerified s.secret_key now token with
  | none => (.error .invalidToken, s)
  | some payload =>
    if payload.iss ≠ s.issuer then (.error .invalidIssuer, s)
    else if payload.token_type ≠ "access_token" then (.error .invalidType, s)
    else
      let resErr : Option TokenErr :=
        if strTruthy resource then
          let r := resource.getD ""
          if strTruthy payload.resource && !(payload.resource == some r) then
            some .resourceMismatch
          else if !(payload.aud == "") && !(payload.aud == r) then
            some .audienceMismatch
          else none
        else none
      match resErr with
      | some e => (.error e, s)
      | none =>
        match dget s.active_tokens payload.jti with
        | none => (.error .revokedToken, s)
        | some ctx =>
          if ctx.issued_at + ctx.expires_in ≤ now then
            (.error .expiredToken,
             { s with active_tokens := derase payload.jti s.active_tokens })
          else (.ok ctx, s)

/-- `TokenManager._revoke_all_client_tokens`: drops every access token and
refresh token whose stored client/user pair matches (the source collects
matching keys then deletes them, which is the same filter). -/
def _revoke_all_client_tokens (s : TMState) (client_id user_id : String) : TMState :=
  { s with
    active_tokens :=
      s.active_tokens.filter (fun e => !(e.2.client_id == client_id && e.2.user_id == user_id))
    refresh_tokens :=
      s.refresh_tokens.filter (fun e => !(e.2.client_id == client_id && e.2.user_id == user_id)) }

/-- `TokenManager.refresh_access_token`: reuse detection (revokes all
tokens of the client/user pair), expiry check, mark used, revoke the old
access token, mint a fresh access token (no scope is passed) and a fresh
refresh token, delete the old refresh token.  Python stores the same
`TokenContext` object it later mutates with `refresh_token`, so the stored
entry is updated alongside the returned one. -/
def refresh_access_token (s : TMState) (now : Nat) (refresh_token : TokenStr)
    (resource : Option String) (new_jti new_refresh : String) :
    Except TokenErr TokenContext × TMState :=
  match dget s.refresh_tokens refresh_token with
  | none => (.error .invalidRefreshToken, s)
  | some rd =>
    if rd.used then
      (.error .refreshReuse, _revoke_all_client_tokens s rd.client_id rd.user_id)
    else if rd.expires_at ≤ now then (.error .refreshExpired, s)
    else
      let s1 := { s with
        refresh_tokens := dinsert refresh_token { rd with used := true } s.refresh_tokens }
      let s2 := { s1 with active_tokens := derase rd.access_token_jti s1.active_tokens }
      let p1 := create_access_token s2 now new_jti rd.client_id rd.user_id none resource none
      let p2 := create_refresh_token p1.2 now new_refresh rd.client_id rd.user_id new_jti
      let ctx2 := { p1.1 with refresh_token := some p2.1 }
      let s5 := { p2.2 with active_tokens := dinsert new_jti ctx2 p2.2.active_tokens }
      (.ok ctx2, { s5 with refresh_tokens := derase refresh_token s5.refresh_tokens })

/-- `TokenManager.revoke_token`: tries an unverified JWT decode (any key);
if the `jti` claim is truthy and active, deletes it and returns `True`;
otherwise falls through to the refresh-token store; unknown tokens return
`False`.  Total — the `jwt.InvalidTokenError` on non-JWT input is caught. -/
def revoke_token (s : TMState) (token : TokenStr) : Bool × TMState :=
  match token with
  | .jwtTok _ p =>
    if !(p.jti == "") && (dget s.active_tokens p.jti).isSome then
      (true, { s with active_tokens := derase p.jti s.active_tokens })
    else if (dget s.refresh_tokens token).isSome then
      (true, { s with refresh_tokens := derase token s.refresh_tokens })
    else (false, s)
  | .raw _ =>
    if (dget s.refresh_tokens token).isSome then
      (true, { s with refresh_tokens := derase token s.refresh_tokens })
    else (false, s)

end TokenManager

/-- RFC 7662-style introspection response dict; `active := false` with all
other fields absent models `{"active": False}`. -/
structure IntrospectionResponse where
  active : Bool
  client_id : Option String := none
  username : Option String := none
  scope : Option String := none
  resource : Option String := none
  exp : Option Nat := none
  iat : Option Nat := none
  iss : Option String := none
  sub : Option String := none
  aud : Option String := none
  token_type : Option String := none
deriving DecidableEq, Repr

namespace TokenManager

/-- `TokenManager.introspect_token`: returns the claims with
`active: True` when validation succeeds, else `{"active": False}` (the
second `jwt.decode` always succeeds after a successful validation; the
`raw` branch below is unreachable in that case). -/
def introspect_token (s : TMState) (now : Nat) (token : TokenStr) :
    IntrospectionResponse × TMState :=
  match validate_access_token s now token none with
  | (.ok ctx, s1) =>
    match token with
    | .jwtTok _ p =>
      ({ active := true
         client_id := some ctx.client_id
         username := some ctx.user_id
         scope := ctx.scope
         resource := ctx.resource
         exp := some p.exp
         iat := some p.iat
         iss := some p.iss
         sub := some p.sub
         aud := some p.aud
         token_type := some "access_token" }, s1)
    | .raw _ => ({ active := false }, s1)
  | (.error _, s1) => ({ active := false }, s1)

end TokenManager

/-! ## Authorization Orchestrator (`src/auth/oauth21_provider.py`) -/

/-- The part of `ClientContext` (from `client_authenticator.py`) the
orchestrator reads: the authenticated client id. -/
structure ClientContext where
  client_id : String
deriving DecidableEq, Repr

/-- The injected `ClientAuthenticator.authenticate_client`, abstracted
over the credential payload (`client_auth` dict blobs are opaque strings
here); an `error` is a raised `ClientAuthenticationError` with its
message. -/
abbrev Authenticator := String → Except String ClientContext

/-- OAuth 2.1 error codes raised by the orchestrator. -/
inductive OAuthErrCode
  | invalid_request
  | invalid_client
  | invalid_grant
  | unsupported_grant_type
  | insufficient_scope
  | invalid_token
deriving DecidableEq, Repr

/-- `OAuth21Error(error, description)`. -/
structure OAuth21Error where
  error : OAuthErrCode
  description : String
deriving DecidableEq, Repr

/-- Value stored in `OAuth21Provider.authorization_codes`. -/
structure AuthCodeData where
  client_id : String
  redirect_uri : String
  scope : Option String
  code_challenge : String
  code_challenge_method : String
  resource : Option String
  expires_at : Nat
  used : Bool
  created_at : Nat
deriving DecidableEq, Repr

/-- A `client_registry` entry as the orchestrator reads it: only the
`redirect_uris` key (defaulting to `[]`) is consulted. -/
structure ClientConfig where
  redirect_uris : List String := []
deriving DecidableEq, Repr

/-- `OAuth21Provider` instance state. -/
structure ProviderState where
  issuer : String
  tm : TMState
  client_registry : List (String × ClientConfig) := []
  authorization_codes : List (String × AuthCodeData) := []
deriving DecidableEq, Repr

/-- Authorization response: `redirect_uri` plus the `code`/`state` params
(delivered via GET redirect). -/
structure AuthorizationResponse where
  redirect_uri : String
  code : String
  state : Option String
  method : String := "GET"
deriving DecidableEq, Repr

/-- Token response dict; `scope`/`resource` are `none` when the source
omits the key. -/
structure TokenResponse where
  access_token : TokenStr
  token_type : String
  expires_in : Nat
  refresh_token : TokenStr
  scope : Option String := none
  resource : Option String := none
deriving DecidableEq, Repr

namespace OAuth21Provider

/-- `OAuth21Provider._validate_redirect_uri`. -/
def _validate_redirect_uri (redirect_uri : String) (cfg : ClientConfig) : Bool :=
  cfg.redirect_uris.contains redirect_uri

/-- `OAuth21Provider.handle_authorization_request`: validates client,
redirect URI, mandatory PKCE challenge and method, then stores a fresh
authorization code with a 10-minute expiry and `used = False`. -/
def handle_authorization_request (s : ProviderState) (now : Nat) (auth_code : String)
    (client_id redirect_uri : String) (scope state : Option String)
    (code_challenge code_challenge_method : Option String) (resource : Option String) :
    Except OAuth21Error AuthorizationResponse × ProviderState :=
  match dget s.client_registry client_id with
  | none => (.error ⟨.invalid_client, "Unknown client identifier"⟩, s)
  | some cfg =>
    if !(_validate_redirect_uri redirect_uri cfg) then
      (.error ⟨.invalid_request, "Invalid redirect URI"⟩, s)
    else if !(strTruthy code_challenge) then
      (.error ⟨.invalid_request, "PKCE code_challenge is required for OAuth 2.1"⟩, s)
    else if !(code_challenge_method == some "S256" || code_challenge_method == some "plain") then
      (.error ⟨.invalid_request, "Invalid code_challenge_method. Must be S256 or plain"⟩, s)
    else
      let codeData : AuthCodeData :=
        { client_id := client_id
          redirect_uri := redirect_uri
          scope := scope
          code_challenge := code_challenge.getD ""
          code_challenge_method := code_challenge_method.getD ""
          resource := resource
          expires_at := now + 600
          used := false
          created_at := now }
      (.ok { redirect_uri := redirect_uri, code := auth_code, state := state },
       { s with authorization_codes := dinsert auth_code codeData s.authorization_codes })

/-- `OAuth21Provider._handle_authorization_code_grant`: authenticate the
client, look up and validate the code (missing / used / expired / client
mismatch / redirect mismatch / PKCE failure each yield `invalid_grant`),
mark the code used, then mint an access token and a linked refresh token.
On code reuse the source only logs a warning — no token revocation is
performed. -/
def _handle_authorization_code_grant (authFn : Authenticator) (s : ProviderState) (now : Nat)
    (client_auth : String) (code redirect_uri code_verifier : String)
    (resource : Option String) (new_jti new_refresh : String) :
    Except OAuth21Error TokenResponse × ProviderState :=
  match authFn client_auth with
  | .error msg => (.error ⟨.invalid_client, msg⟩, s)
  | .ok cctx =>
    match dget s.authorization_codes code with
    | none => (.error ⟨.invalid_grant, "Invalid authorization code"⟩, s)
    | some ad =>
      if ad.used then (.error ⟨.invalid_grant, "Authorization code already used"⟩, s)
      else if ad.expires_at < now then
        (.error ⟨.invalid_grant, "Authorization code has expired"⟩, s)
      else if ad.client_id ≠ cctx.client_id then
        (.error ⟨.invalid_grant, "Authorization code issued to different client"⟩, s)
      else if ad.redirect_uri ≠ redirect_uri then
        (.error ⟨.invalid_grant, "Invalid redirect URI"⟩, s)
      else if !(PKCEVerifier.verify_code_challenge code_verifier ad.code_challenge
                  ad.code_challenge_method) then
        (.error ⟨.invalid_grant, "PKCE verification failed"⟩, s)
      else
        let s1 := { s with
          authorization_codes := dinsert code { ad with used := true } s.authorization_codes }
        let final_resource := orOptStr resource ad.resource
        let user_id := "user_" ++ cctx.client_id
        let p1 := TokenManager.create_access_token s1.tm now new_jti cctx.client_id user_id
          ad.scope final_resource none
        let p2 := TokenManager.create_refresh_token p1.2 now new_refresh cctx.client_id user_id
          new_jti
        let resp : TokenResponse :=
          { access_token := p1.1.access_token
            token_type := p1.1.token_type
            expires_in := p1.1.expires_in
            refresh_token := p2.1
            scope := if strTruthy p1.1.scope then p1.1.scope else none
            resource := if strTruthy final_resource then final_resource else none }
        (.ok resp, { s1 with tm := p2.2 })

/-- `OAuth21Provider._handle_refresh_token_grant`: authenticate the
client, delegate to `TokenManager.refresh_access_token`, map `TokenError`
to `invalid_grant` carrying `str(e)`. -/
def _handle_refresh_token_grant (authFn : Authenticator) (s : ProviderState) (now : Nat)
    (client_auth : String) (refresh_token : TokenStr) (resource : Option String)
    (new_jti new_refresh : String) : Except OAuth21Error TokenResponse × ProviderState :=
  match authFn client_auth with
  | .error msg => (.error ⟨.invalid_client, msg⟩, s)
  | .ok _ =>
    match TokenManager.refresh_access_token s.tm now refresh_token resource
        new_jti new_refresh with
    | (.error e, tm1) => (.error ⟨.invalid_grant, tokenErrMsg e⟩, { s with tm := tm1 })
    | (.ok ctx, tm1) =>
      let resp : TokenResponse :=
        { access_token := ctx.access_token
          token_type := ctx.token_type
          expires_in := ctx.expires_in
          refresh_token := ctx.refresh_token.getD (TokenStr.raw "")
          scope := if strTruthy ctx.scope then ctx.scope else none
          resource := if strTruthy resource then resource else none }
      (.ok resp, { s with tm := tm1 })

/-- `OAuth21Provider.handle_token_request`: OAuth 2.1 grant dispatch.  The
`**params` kwargs are passed explicitly; each grant reads only its own. -/
def handle_token_request (authFn : Authenticator) (s : ProviderState) (now : Nat)
    (grant_type : String) (client_auth : String) (code redirect_uri code_verifier : String)
    (refresh_token : TokenStr) (resource : Option String) (new_jti new_refresh : String) :
    Except OAuth21Error TokenResponse × ProviderState :=
  if grant_type = "authorization_code" then
    _handle_authorization_code_grant authFn s now client_auth code redirect_uri code_verifier
      resource new_jti new_refresh
  else if grant_type = "refresh_token" then
    _handle_refresh_token_grant authFn s now client_auth refresh_token resource
      new_jti new_refresh
  else (.error ⟨.unsupported_grant_type, "Grant type not supported by OAuth 2.1"⟩, s)

/-- `OAuth21Provider.revoke_token` (RFC 7009): on client-authentication
failure it still returns `True` without touching any store; on success it
delegates to `TokenManager.revoke_token`. -/
def revoke_token (authFn : Authenticator) (s : ProviderState) (token : TokenStr)
    (client_auth : String) : Bool × ProviderState :=
  match authFn client_auth with
  | .error _ => (true, s)
  | .ok _ =>
    let p := TokenManager.revoke_token s.tm token
    (p.1, { s with tm := p.2 })

/-- `OAuth21Provider.introspect_token` (RFC 7662): on client-authentication
failure it returns `{"active": False}`; on success it delegates to
`TokenManager.introspect_token`. -/
def introspect_token (authFn : Authenticator) (s : ProviderState) (now : Nat)
    (token : TokenStr) (client_auth : String) : IntrospectionResponse × ProviderState :=
  match authFn client_auth with
  | .error _ => ({ active := false }, s)
  | .ok _ =>
    let p := TokenManager.introspect_token s.tm now token
    (p.1, { s with tm := p.2 })

end OAuth21Provider

/-! ## Client Registry (`src/auth/client_registry.py`)

Registration requests are JSON dicts; they are modelled by a typed record
(`RegRequest`) whose `Option` fields distinguish present/absent keys.  The
`isinstance` type checks of the source (rejecting non-list `redirect_uris`
etc.) fall away under this typing; every input they reject raises before
any state mutation, so the modelled input space is the one on which the
claims are stated. -/

/-- The fields of `urllib.parse.urlparse` the registry reads. -/
structure UrlParts where
  scheme : String
  netloc : String
deriving DecidableEq, Repr

/-- Characters allowed in a URL scheme after the first (the `scheme_chars`
set of `urllib`). -/
def isSchemeChar (c : Char) : Bool :=
  c.isAlpha || c.isDigit || c == '+' || c == '-' || c == '.'

/-- Split off a scheme prefix before the first `:` when every character of
the prefix is a scheme character (first char checked separately). -/
def schemeSplitAux (acc : List Char) : List Char → Option (List Char × List Char)
  | [] => none
  | c :: rest =>
    if c == ':' then (if acc.isEmpty then none else some (acc.reverse, rest))
    else if isSchemeChar c then schemeSplitAux (c :: acc) rest
    else none

/-- `urllib.parse.urlparse`, restricted to the `scheme`/`netloc` fields:
the scheme is the lowercased prefix before `:` when it starts with an
ASCII letter and uses scheme characters; the netloc follows a leading
`//` up to the first `/`, `?` or `#`. -/
def urlparse (u : String) : UrlParts :=
  let cs := u.data
  let p :=
    match cs with
    | c0 :: _ =>
      if c0.isAlpha then
        match schemeSplitAux [] cs with
        | some (sch, rst) => (String.mk (sch.map Char.toLower), rst)
        | none => ("", cs)
      else ("", cs)
    | [] => ("", cs)
  let netloc :=
    match p.2 with
    | '/' :: '/' :: tl =>
      String.mk (tl.takeWhile (fun c => !(c == '/' || c == '?' || c == '#')))
    | _ => ""
  ⟨p.1, netloc⟩

/-- The characters of `cs` after its last occurrence of `sep` (Python
`rpartition(sep)[2]`, the whole string when `sep` is absent). -/
def afterLast (sep : Char) (cs : List Char) : List Char :=
  ((cs.reverse).takeWhile (fun c => !(c == sep))).reverse

/-- The `hostname` property of a parse result: strip userinfo after the
last `@`, take a bracketed IPv6 literal or the part before `:`, lowercase;
empty yields `None`. -/
def hostnameOf (netloc : String) : Option String :=
  let hostinfo := afterLast '@' netloc.data
  let host :=
    match hostinfo.dropWhile (fun c => !(c == '[')) with
    | _ :: afterBr => afterBr.takeWhile (fun c => !(c == ']'))
    | [] => hostinfo.takeWhile (fun c => !(c == ':'))
  let h := String.mk (host.map Char.toLower)
  if h == "" then none else some h

/-- `ClientRegistration` dataclass (post-`__post_init__` defaults). -/
structure ClientRegistration where
  client_id : String
  client_secret : Option String := none
  client_name : String := ""
  client_uri : Option String := none
  redirect_uris : List String := []
  grant_types : List String := ["authorization_code", "refresh_token"]
  response_types : List String := ["code"]
  scope : Option String := none
  token_endpoint_auth_method : String := "client_secret_basic"
  contacts : List String := []
  logo_uri : Option String := none
  policy_uri : Option String := none
  tos_uri : Option String := none
  software_id : Option String := none
  software_version : Option String := none
  code_challenge_method : String := "S256"
  mcp_version : String := "2024-11-05"
  mcp_capabilities : List String := ["resources", "tools", "prompts"]
  client_id_issued_at : Nat := 0
  client_secret_expires_at : Nat := 0
  registration_client_uri : Option String := none
  registration_access_token : Option String := none
deriving DecidableEq, Repr

/-- `ClientRegistrationError(error, description)`. -/
structure ClientRegistrationError where
  error : String
  description : String
deriving DecidableEq, Repr

/-- A registration/update request body (RFC 7591 JSON), typed. -/
structure RegRequest where
  redirect_uris : Option (List String) := none
  grant_types : Option (List String) := none
  response_types : Option (List String) := none
  token_endpoint_auth_method : Option String := none
  client_name : Option String := none
  client_uri : Option String := none
  scope : Option String := none
  logo_uri : Option String := none
  policy_uri : Option String := none
  tos_uri : Option String := none
  software_id : Option String := none
  software_version : Option String := none
  contacts : Option (List String) := none
  mcp_version : Option String := none
  mcp_capabilities : Option (List String) := none
deriving DecidableEq, Repr

/-- The `validated` dict built by `_validate_registration_request`:
`Option` fields model conditionally-present keys. -/
structure ValidatedData where
  redirect_uris : Option (List String)
  grant_types : List String
  response_types : List String
  token_endpoint_auth_method : String
  client_name : Option String
  client_uri : Option String
  scope : Option String
  logo_uri : Option String
  policy_uri : Option String
  tos_uri : Option String
  software_id : Option String
  software_version : Option String
  contacts : Option (List String)
  mcp_version : String
  mcp_capabilities : List String
deriving DecidableEq, Repr

namespace DynamicClientRegistry

/-- The per-URI validation inside `_validate_registration_request`: the
URI must parse with a scheme and netloc, and be HTTPS unless its hostname
is `localhost` or `127.0.0.1`. -/
def validateRedirectUri (uri : String) : Except ClientRegistrationError Unit :=
  let parsed := urlparse uri
  if parsed.scheme == "" || parsed.netloc == "" then
    .error ⟨"invalid_redirect_uri", "Invalid URI"⟩
  else if !(parsed.scheme == "https") &&
      !(hostnameOf parsed.netloc == some "localhost" ||
        hostnameOf parsed.netloc == some "127.0.0.1") then
    .error ⟨"invalid_redirect_uri", "OAuth 2.1 requires HTTPS redirect URIs"⟩
  else .ok ()

/-- The `for uri in redirect_uris` loop: first failure wins, otherwise the
URIs are returned in order. -/
def validateRedirectUris : List String → Except ClientRegistrationError (List String)
  | [] => .ok []
  | u :: rest =>
    match validateRedirectUri u with
    | .error e => .error e
    | .ok _ =>
      match validateRedirectUris rest with
      | .error e => .error e
      | .ok vs => .ok (u :: vs)

/-- The five supported `token_endpoint_auth_method` values. -/
def validAuthMethods : List String :=
  ["client_secret_basic", "client_secret_post", "private_key_jwt", "tls_client_auth", "none"]

/-- A truthy string field is copied into `validated` (Python `if value:`). -/
def keepTruthy (v : Option String) : Option String :=
  if strTruthy v then v else none

/-- `DynamicClientRegistry._validate_registration_request`. -/
def _validate_registration_request (data : RegRequest) (is_update : Bool) :
    Except ClientRegistrationError ValidatedData :=
  if !is_update && !(listTruthy data.redirect_uris) then
    .error ⟨"invalid_redirect_uri", "redirect_uris is required"⟩
  else
    let urisStep : Except ClientRegistrationError (Option (List String)) :=
      if listTruthy data.redirect_uris then
        match validateRedirectUris (data.redirect_uris.getD []) with
        | .error e => .error e
        | .ok vs => .ok (some vs)
      else .ok none
    match urisStep with
    | .error e => .error e
    | .ok uris? =>
      let grant_types := data.grant_types.getD ["authorization_code"]
      if !(grant_types.all (fun g => g == "authorization_code" || g == "refresh_token")) then
        .error ⟨"invalid_client_metadata",
          "OAuth 2.1 only supports authorization_code and refresh_token"⟩
      else
        let response_types := data.response_types.getD ["code"]
        if response_types ≠ ["code"] then
          .error ⟨"invalid_client_metadata", "OAuth 2.1 only supports code response type"⟩
        else
          let auth_method := data.token_endpoint_auth_method.getD "client_secret_basic"
          if !(validAuthMethods.contains auth_method) then
            .error ⟨"invalid_client_metadata", "Invalid token_endpoint_auth_method"⟩
          else
            .ok
              { redirect_uris := uris?
                grant_types := grant_types
                response_types := response_types
                token_endpoint_auth_method := auth_method
                client_name := keepTruthy data.client_name
                client_uri := keepTruthy data.client_uri
                scope := keepTruthy data.scope
                logo_uri := keepTruthy data.logo_uri
                policy_uri := keepTruthy data.policy_uri
                tos_uri := keepTruthy data.tos_uri
                software_id := keepTruthy data.software_id
                software_version := keepTruthy data.software_version
                contacts := if listTruthy data.contacts then data.contacts else none
                mcp_version := data.mcp_version.getD "2024-11-05"
                mcp_capabilities :=
                  data.mcp_capabilities.getD ["resources", "tools", "prompts"] }

end DynamicClientRegistry

/-- Value stored in `DynamicClientRegistry.registration_tokens`. -/
structure RegTokenData where
  client_id : String
  created_at : Nat
  expires_at : Nat
deriving DecidableEq, Repr

/-- `DynamicClientRegistry` instance state. -/
structure RegState where
  issuer : String
  default_scope : String := "read write"
  client_secret_expiry : Nat := 7776000
  registration_token_expiry : Nat := 86400
  registered_clients : List (String × ClientRegistration) := []
  registration_tokens : List (String × RegTokenData) := []
deriving DecidableEq, Repr

/-- The client-registration response dict built by
`_build_registration_response`; optional keys are `none` when omitted. -/
structure RegistrationResponse where
  client_id : String
  client_name : String
  redirect_uris : List String
  grant_types : List String
  response_types : List String
  token_endpoint_auth_method : String
  scope : Option String
  client_id_issued_at : Nat
  client_secret : Option String := none
  client_secret_expires_at : Option Nat := none
  client_uri : Option String := none
  logo_uri : Option String := none
  policy_uri : Option String := none
  tos_uri : Option String := none
  software_id : Option String := none
  software_version : Option String := none
  contacts : Option (List String) := none
  registration_access_token : Option String := none
  registration_client_uri : Option String := none
  mcp_version : String
  mcp_capabilities : List String
deriving DecidableEq, Repr

namespace DynamicClientRegistry

/-- `DynamicClientRegistry._build_registration_response`. -/
def _build_registration_response (r : ClientRegistration) : RegistrationResponse :=
  { client_id := r.client_id
    client_name := r.client_name
    redirect_uris := r.redirect_uris
    grant_types := r.grant_types
    response_types := r.response_types
    token_endpoint_auth_method := r.token_endpoint_auth_method
    scope := r.scope
    client_id_issued_at := r.client_id_issued_at
    client_secret := if strTruthy r.client_secret then r.client_secret else none
    client_secret_expires_at :=
      if strTruthy r.client_secret then some r.client_secret_expires_at else none
    client_uri := keepTruthy r.client_uri
    logo_uri := keepTruthy r.logo_uri
    policy_uri := keepTruthy r.policy_uri
    tos_uri := keepTruthy r.tos_uri
    software_id := keepTruthy r.software_id
    software_version := keepTruthy r.software_version
    contacts := if r.contacts.isEmpty then none else some r.contacts
    registration_access_token :=
      if strTruthy r.registration_access_token then r.registration_access_token else none
    registration_client_uri :=
      if strTruthy r.registration_access_token then r.registration_client_uri else none
    mcp_version := r.mcp_version
    mcp_capabilities := r.mcp_capabilities }

/-- `DynamicClientRegistry.register_client` (RFC 7591): validate, generate
credentials (a secret only for the `client_secret_*` methods), store the
registration and its registration access token.  Validation failures
propagate before any mutation. -/
def register_client (s : RegState) (now : Nat)
    (gen_client_id gen_secret gen_reg_token : String) (req : RegRequest) :
    Except ClientRegistrationError RegistrationResponse × RegState :=
  match _validate_registration_request req false with
  | .error e => (.error e, s)
  | .ok vd =>
    let auth_method := vd.token_endpoint_auth_method
    let needsSecret :=
      auth_method == "client_secret_basic" || auth_method == "client_secret_post"
    let reg : ClientRegistration :=
      { client_id := gen_client_id
        client_secret := if needsSecret then some gen_secret else none
        client_name := vd.client_name.getD ""
        client_uri := vd.client_uri
        redirect_uris := vd.redirect_uris.getD []
        grant_types := vd.grant_types
        response_types := vd.response_types
        scope := some (vd.scope.getD s.default_scope)
        token_endpoint_auth_method := auth_method
        contacts := vd.contacts.getD []
        logo_uri := vd.logo_uri
        policy_uri := vd.policy_uri
        tos_uri := vd.tos_uri
        software_id := vd.software_id
        software_version := vd.software_version
        code_challenge_method := "S256"
        mcp_version := vd.mcp_version
        mcp_capabilities := vd.mcp_capabilities
        client_id_issued_at := now
        client_secret_expires_at := if needsSecret then now + s.client_secret_expiry else 0
        registration_client_uri :=
          some (s.issuer ++ "/oauth/register/" ++ gen_client_id)
        registration_access_token := some gen_reg_token }
    let s1 := { s with
      registered_clients := dinsert gen_client_id reg s.registered_clients
      registration_tokens := dinsert gen_reg_token
        { client_id := gen_client_id
          created_at := now
          expires_at := now + s.registration_token_expiry } s.registration_tokens }
    (.ok (_build_registration_response reg), s1)

/-- `DynamicClientRegistry._validate_registration_token`: unknown token or
client mismatch → `False`; expired → delete the token and `False`. -/
def _validate_registration_token (s : RegState) (now : Nat) (token client_id : String) :
    Bool × RegState :=
  match dget s.registration_tokens token with
  | none => (false, s)
  | some td =>
    if td.client_id ≠ client_id then (false, s)
    else if td.expires_at < now then
      (false, { s with registration_tokens := derase token s.registration_tokens })
    else (true, s)

/-- `DynamicClientRegistry.update_client`: token check, lookup, re-validate
the patch (`is_update = True`, so `redirect_uris` optional), then apply the
validated fields over the existing registration.  Keys absent from
`validated` keep their old values; the always-present keys
(`grant_types`, `response_types`, `token_endpoint_auth_method`,
`mcp_version`, `mcp_capabilities`) are overwritten with the validated
values (which are the source defaults when the patch omits them). -/
def update_client (s : RegState) (now : Nat) (client_id registration_token : String)
    (req : RegRequest) : Except ClientRegistrationError RegistrationResponse × RegState :=
  let tok := _validate_registration_token s now registration_token client_id
  if !tok.1 then (.error ⟨"invalid_token", "Invalid registration access token"⟩, tok.2)
  else
    match dget tok.2.registered_clients client_id with
    | none => (.error ⟨"invalid_client_id", "Client not found"⟩, tok.2)
    | some reg =>
      match _validate_registration_request req true with
      | .error e => (.error e, tok.2)
      | .ok vd =>
        let reg2 : ClientRegistration :=
          { reg with
            redirect_uris := vd.redirect_uris.getD reg.redirect_uris
            grant_types := vd.grant_types
            response_types := vd.response_types
            token_endpoint_auth_method := vd.token_endpoint_auth_method
            client_name := vd.client_name.getD reg.client_name
            client_uri := match vd.client_uri with | some v => some v | none => reg.client_uri
            scope := match vd.scope with | some v => some v | none => reg.scope
            logo_uri := match vd.logo_uri with | some v => some v | none => reg.logo_uri
            policy_uri := match vd.policy_uri with | some v => some v | none => reg.policy_uri
            tos_uri := match vd.tos_uri with | some v => some v | none => reg.tos_uri
            software_id :=
              match vd.software_id with | some v => some v | none => reg.software_id
            software_version :=
              match vd.software_version with | some v => some v | none => reg.software_version
            contacts := vd.contacts.getD reg.contacts
            mcp_version := vd.mcp_version
            mcp_capabilities := vd.mcp_capabilities }
        (.ok (_build_registration_response reg2),
         { tok.2 with registered_clients := dinsert client_id reg2 tok.2.registered_clients })

end DynamicClientRegistry

/-! ## Concrete fixtures used by witnesses and the code-bug theorem -/

/-- The redirect-URI wellformedness the registry enforces: HTTPS scheme,
or loopback hostname (`localhost` / `127.0.0.1`). -/
def goodRedirectUri (u : String) : Bool :=
  (urlparse u).scheme == "https" ||
  hostnameOf (urlparse u).netloc == some "localhost" ||
  hostnameOf (urlparse u).netloc == some "127.0.0.1"

/-- The registry invariant of C9: every stored registration has a non-empty
`redirect_uris` list whose members are all HTTPS-or-loopback. -/
def RedirectInv (l : List (String × ClientRegistration)) : Prop :=
  ∀ e ∈ l, e.2.redirect_uris ≠ [] ∧ ∀ u ∈ e.2.redirect_uris, goodRedirectUri u = true

/-- A concrete 43-character PKCE verifier (also usable as a `plain`
challenge). -/
def exVerifier : String := String.mk (List.replicate 43 'a')

/-- A concrete authenticator accepting any credentials as client `c1`. -/
def exAuthFn : Authenticator := fun _ => Except.ok ⟨"c1"⟩

/-- A concrete provider state with one registered client. -/
def exProviderState : ProviderState :=
  { issuer := "iss", tm := { secret_key := "k" },
    client_registry := [("c1", { redirect_uris := ["https://app.example/cb"] })] }

/-- The `AuthorizationCodeRecord` stored by `handle_authorization_request`
for a request with the given parameters at time `t0`. -/
def mkAuthCode (client_id redirect_uri : String) (scope : Option String)
    (challenge method : String) (resource0 : Option String) (t0 : Nat) : AuthCodeData :=
  { client_id := client_id, redirect_uri := redirect_uri, scope := scope,
    code_challenge := challenge, code_challenge_method := method, resource := resource0,
    expires_at := t0 + 600, used := false, created_at := t0 }

/-- Token-manager fixture for the C10 witness: one live access token with
scope `"read write"` and the refresh token issued alongside it. -/
def c10TM : TMState :=
  { secret_key := "k", issuer := "iss",
    active_tokens := [("j1", { access_token := TokenStr.raw "at", scope := some "read write", client_id := "c1", user_id := "u1", issued_at := 0, jti := "j1" })],
    refresh_tokens := [(TokenStr.raw "r1", { client_id := "c1", user_id := "u1", access_token_jti := "j1", expires_at := 7200, created_at := 0, used := false })] }

/-- Provider fixture for the C10 witness. -/
def c10PS : ProviderState := { issuer := "iss", tm := c10TM }

/-- The refresh record stored under `r1` in `c10TM`. -/
def c10RD : RefreshData :=
  { client_id := "c1", user_id := "u1", access_token_jti := "j1", expires_at := 7200, created_at := 0, used := false }

/-- Token-manager fixture for the C4 witness: one unused refresh token. -/
def c4TM : TMState :=
  { secret_key := "k", issuer := "iss",
    refresh_tokens := [(TokenStr.raw "RT0", { client_id := "c1", user_id := "u1", access_token_jti := "j0", expires_at := 7200, created_at := 0, used := false })] }

/-- Provider fixture for the C4 witness. -/
def c4PS : ProviderState := { issuer := "iss", tm := c4TM }

/-- The refresh record stored under `RT0` in `c4TM`. -/
def c4RD : RefreshData :=
  { client_id := "c1", user_id := "u1", access_token_jti := "j0", expires_at := 7200, created_at := 0, used := false }

/-! ## Theorems -/

set_option maxRecDepth 100000

theorem dget_dinsert_self {K V : Type} [DecidableEq K] (key : K) (v : V) (l : List (K × V)) :
    dget (dinsert key v l) key = some v := by
  induction l with
  | nil => simp [dinsert, dget]
  | cons hd tl ih =>
    by_cases h : hd.1 = key
    · simp [dinsert, dget, h]
    · simp [dinsert, dget, h, ih]

theorem dget_dinsert_ne {K V : Type} [DecidableEq K] {key key' : K} (v : V) (l : List (K × V))
    (h : key' ≠ key) : dget (dinsert key v l) key' = dget l key' := by
  have h2 : ¬ key = key' := fun hh => h hh.symm
  induction l with
  | nil => simp [dinsert, dget, h2]
  | cons hd tl ih =>
    rcases hd with ⟨k, w⟩
    by_cases hk : k = key
    · have h3 : ¬ k = key' := by rw [hk]; exact h2
      simp [dinsert, dget, hk, h2, h3]
    · by_cases hk' : k = key'
      · simp [dinsert, dget, hk, hk', h]
      · simp [dinsert, dget, hk, hk', ih]

theorem dget_derase_self {K V : Type} [DecidableEq K] (key : K) (l : List (K × V)) :
    dget (derase key l) key = none := by
  induction l with
  | nil => simp [derase, dget]
  | cons hd tl ih =>
    rcases hd with ⟨k, w⟩
    by_cases h : k = key
    · simp [derase, h, ih]
    · simp [derase, dget, h, ih]

theorem dget_derase_ne {K V : Type} [DecidableEq K] {key key' : K} (l : List (K × V))
    (h : key' ≠ key) : dget (derase key l) key' = dget l key' := by
  have h2 : ¬ key = key' := fun hh => h hh.symm
  induction l with
  | nil => simp [derase, dget]
  | cons hd tl ih =>
    rcases hd with ⟨k, w⟩
    by_cases hk : k = key
    · have h3 : ¬ k = key' := by rw [hk]; exact h2
      simp [derase, dget, hk, h2, h3, ih]
    · by_cases hk' : k = key'
      · simp [derase, dget, hk, hk', h]
      · simp [derase, dget, hk, hk', ih]

theorem dget_mem {K V : Type} [DecidableEq K] {l : List (K × V)} :
    ∀ {key : K} {v : V}, dget l key = some v → (key, v) ∈ l := by
  induction l with
  | nil => intro key v h; simp [dget] at h
  | cons hd tl ih =>
    intro key v h
    rcases hd with ⟨k, w⟩
    simp only [dget] at h
    by_cases hk : k = key
    · rw [if_pos hk] at h
      injection h with h
      subst hk; subst h
      exact List.mem_cons_self _ _
    · rw [if_neg hk] at h
      exact List.mem_cons_of_mem _ (ih h)

theorem mem_dinsert {K V : Type} [DecidableEq K] {key : K} {v : V} {l : List (K × V)} {e : K × V}
    (h : e ∈ dinsert key v l) : e = (key, v) ∨ e ∈ l := by
  induction l with
  | nil => simpa [dinsert] using h
  | cons hd tl ih =>
    rcases hd with ⟨k, w⟩
    by_cases hk : k = key
    · simp only [dinsert, if_pos hk] at h
      rcases List.mem_cons.mp h with h | h
      · exact Or.inl h
      · exact Or.inr (List.mem_cons_of_mem _ h)
    · simp only [dinsert, if_neg hk] at h
      rcases List.mem_cons.mp h with h | h
      · exact Or.inr (by simp [h])
      · rcases ih h with h' | h'
        · exact Or.inl h'
        · exact Or.inr (List.mem_cons_of_mem _ h')

theorem natToBytesBE_length (n len : Nat) : (natToBytesBE n len).length = len := by
  simp [natToBytesBE]

theorem sha256_length (msg : List Nat) : (sha256 msg).length = 32 := by
  simp [sha256, natToBytesBE_length]

theorem sha256_ne_nil (msg : List Nat) : sha256 msg ≠ [] := by
  intro hh
  have h := sha256_length msg
  rw [hh] at h
  simp at h

theorem b64encodeBytes_ne_nil : ∀ (l : List Nat), l ≠ [] → b64encodeBytes l ≠ []
  | [], h => absurd rfl h
  | [_], _ => by simp [b64encodeBytes]
  | [_, _], _ => by simp [b64encodeBytes]
  | _ :: _ :: _ :: _, _ => by simp [b64encodeBytes]

theorem pkce_validate_ok {v : String} (h1 : 43 ≤ v.length) (h2 : v.length ≤ 128)
    (h3 : ∀ c ∈ v.data, PKCEVerifier.VALID_CHARS.contains c) :
    PKCEVerifier._validate_code_verifier v = .ok () := by
  have hne : (v == "") = false := by
    cases hv : v == ""
    · rfl
    · exfalso
      have hv' : v = "" := eq_of_beq hv
      rw [hv'] at h1
      simp [String.length] at h1
  have hlen : (v.length < 43 || 128 < v.length) = false := by
    simp only [Bool.or_eq_false_iff, decide_eq_false_iff_not, Nat.not_lt]
    omega
  have hchar : (v.data.any fun c => !(PKCEVerifier.VALID_CHARS.contains c)) = false := by
    simp only [List.any_eq_false, Bool.not_eq_true', Bool.not_eq_false]
    exact h3
  simp [PKCEVerifier._validate_code_verifier, hne, hlen, hchar]
  intro x hx
  simpa using h3 x hx

/-- C5: for every verifier of length 43–128 over `[A-Za-z0-9._~-]`, the
S256 challenge derived by `generate_code_challenge` verifies via
`verify_code_challenge`, and any challenge string differing from it fails
verification with a `false` return (never an exception). -/
theorem pkce_s256_roundtrip (v c : String)
    (h1 : 43 ≤ v.length) (h2 : v.length ≤ 128)
    (h3 : ∀ ch ∈ v.data, PKCEVerifier.VALID_CHARS.contains ch) :
    ∃ e, PKCEVerifier.generate_code_challenge v "S256" = .ok e ∧
      PKCEVerifier.verify_code_challenge v e "S256" = true ∧
      (c ≠ e → PKCEVerifier.verify_code_challenge v c "S256" = false) := by
  have hv := pkce_validate_ok h1 h2 h3
  have hlne : b64encodeBytes (sha256 (asciiBytes v)) ≠ [] :=
    b64encodeBytes_ne_nil _ (sha256_ne_nil _)
  have hene : String.mk (b64encodeBytes (sha256 (asciiBytes v))) ≠ "" := by
    intro hh
    exact hlne (congrArg String.data hh)
  have hgen : PKCEVerifier.generate_code_challenge v "S256"
      = .ok (String.mk (b64encodeBytes (sha256 (asciiBytes v)))) := by
    simp [PKCEVerifier.generate_code_challenge, hv]
  refine ⟨String.mk (b64encodeBytes (sha256 (asciiBytes v))), hgen, ?_, ?_⟩
  · simp [PKCEVerifier.verify_code_challenge, hv, hgen, hene]
  · intro hc
    by_cases hc0 : c = ""
    · subst hc0
      simp [PKCEVerifier.verify_code_challenge, hv]
    · have : (String.mk (b64encodeBytes (sha256 (asciiBytes v))) == c) = false := by
        simp
        exact fun hh => hc hh.symm
      simp [PKCEVerifier.verify_code_challenge, hv, hgen, hc0, this]

/-- Witness for C5 at the verifier of 43 `a` characters; the altered
challenge `"x"` differs from the derived one. -/
theorem pkce_s256_roundtrip_witness :
    ∃ e, PKCEVerifier.generate_code_challenge (String.mk (List.replicate 43 'a')) "S256"
        = .ok e ∧
      PKCEVerifier.verify_code_challenge (String.mk (List.replicate 43 'a')) e "S256" = true ∧
      ("x" ≠ e →
        PKCEVerifier.verify_code_challenge (String.mk (List.replicate 43 'a')) "x" "S256"
          = false) :=
  pkce_s256_roundtrip (String.mk (List.replicate 43 'a')) "x"
    (by decide) (by decide) (by decide)

/-- C7: the `revoke_token` of the orchestrator returns success and its
`introspect_token` returns `{"active": False}` whenever client
authentication fails, for every token string and state alike — the
auth-failure responses are independent of the token. -/
theorem revoke_introspect_anti_oracle (authFn : Authenticator) (s : ProviderState) (now : Nat)
    (token : TokenStr) (client_auth msg : String)
    (hfail : authFn client_auth = .error msg) :
    OAuth21Provider.revoke_token authFn s token client_auth = (true, s) ∧
    (OAuth21Provider.introspect_token authFn s now token client_auth).1
      = { active := false } := by
  constructor
  · simp [OAuth21Provider.revoke_token, hfail]
  · simp [OAuth21Provider.introspect_token, hfail]

/-- Witness for C7: a concrete failing authenticator, provider state and
garbage token. -/
theorem revoke_introspect_anti_oracle_witness :
    OAuth21Provider.revoke_token (fun _ => .error "Client authentication failed")
        { issuer := "iss", tm := { secret_key := "k" } } (.raw "not-a-token") "creds"
      = (true, { issuer := "iss", tm := { secret_key := "k" } }) ∧
    (OAuth21Provider.introspect_token (fun _ => .error "Client authentication failed")
        { issuer := "iss", tm := { secret_key := "k" } } 0 (.raw "not-a-token") "creds").1
      = { active := false } :=
  revoke_introspect_anti_oracle (fun _ => .error "Client authentication failed")
    { issuer := "iss", tm := { secret_key := "k" } } 0 (.raw "not-a-token") "creds"
    "Client authentication failed" rfl

/-- C8: `TokenManager.revoke_token` is total (it is a Lean function), it
returns `False` leaving the state unchanged on any token that is neither
an active access token nor a known refresh token, and revoking the same
token twice always ends in `False`.  The hypothesis that refresh-store
keys are non-JWT strings holds in every reachable state, since only
`create_refresh_token` (with `secrets.token_urlsafe` output) inserts
keys. -/
theorem revoke_token_total_idempotent (s : TMState) (t : TokenStr)
    (hrawkeys : ∀ e ∈ s.refresh_tokens, TokenStr.isRaw e.1 = true) :
    ((∀ key p, t = TokenStr.jwtTok key p → p.jti = "" ∨ dget s.active_tokens p.jti = none) →
      dget s.refresh_tokens t = none →
      TokenManager.revoke_token s t = (false, s)) ∧
    (TokenManager.revoke_token (TokenManager.revoke_token s t).2 t).1 = false := by
  have hjwt_refresh : ∀ key p, dget s.refresh_tokens (TokenStr.jwtTok key p) = none := by
    intro key p
    cases hg : dget s.refresh_tokens (.jwtTok key p) with
    | none => rfl
    | some rd =>
      have hmem := dget_mem hg
      have := hrawkeys _ hmem
      simp [TokenStr.isRaw] at this
  constructor
  · intro hjti hrt
    cases t with
    | jwtTok key p =>
      rcases hjti key p rfl with h | h
      · simp [TokenManager.revoke_token, h, hrt]
      · simp [TokenManager.revoke_token, h, hrt]
    | raw str => simp [TokenManager.revoke_token, hrt]
  · cases t with
    | jwtTok key p =>
      by_cases hj : p.jti = ""
      · simp [TokenManager.revoke_token, hj, hjwt_refresh]
      · cases hact : dget s.active_tokens p.jti with
        | none => simp [TokenManager.revoke_token, hj, hact, hjwt_refresh]
        | some ctx =>
          simp [TokenManager.revoke_token, hj, hact, hjwt_refresh, dget_derase_self]
    | raw str =>
      cases hrt : dget s.refresh_tokens (.raw str) with
      | none => simp [TokenManager.revoke_token, hrt]
      | some rd => simp [TokenManager.revoke_token, hrt, dget_derase_self]

/-- Witness for C8 at a concrete state holding one refresh token, revoking
an unknown raw token and, for idempotence, the known one. -/
theorem revoke_token_total_idempotent_witness :
    ((∀ key p, TokenStr.raw "unknown" = TokenStr.jwtTok key p →
        p.jti = "" ∨
        dget ({ secret_key := "k",
                refresh_tokens := [(TokenStr.raw "r1",
                  { client_id := "c1", user_id := "u1", access_token_jti := "j1",
                    expires_at := 100, created_at := 0, used := false })] } :
            TMState).active_tokens p.jti = none) →
      dget ({ secret_key := "k",
              refresh_tokens := [(TokenStr.raw "r1",
                { client_id := "c1", user_id := "u1", access_token_jti := "j1",
                  expires_at := 100, created_at := 0, used := false })] } :
          TMState).refresh_tokens (TokenStr.raw "unknown") = none →
      TokenManager.revoke_token
        { secret_key := "k",
          refresh_tokens := [(TokenStr.raw "r1",
            { client_id := "c1", user_id := "u1", access_token_jti := "j1",
              expires_at := 100, created_at := 0, used := false })] } (TokenStr.raw "unknown")
        = (false,
           { secret_key := "k",
             refresh_tokens := [(TokenStr.raw "r1",
               { client_id := "c1", user_id := "u1", access_token_jti := "j1",
                 expires_at := 100, created_at := 0, used := false })] })) ∧
    (TokenManager.revoke_token
      (TokenManager.revoke_token
        { secret_key := "k",
          refresh_tokens := [(TokenStr.raw "r1",
            { client_id := "c1", user_id := "u1", access_token_jti := "j1",
              expires_at := 100, created_at := 0, used := false })] }
        (TokenStr.raw "unknown")).2 (TokenStr.raw "unknown")).1 = false :=
  revoke_token_total_idempotent
    { secret_key := "k",
      refresh_tokens := [(TokenStr.raw "r1",
        { client_id := "c1", user_id := "u1", access_token_jti := "j1",
          expires_at := 100, created_at := 0, used := false })] }
    (TokenStr.raw "unknown") (by decide)

theorem validate_ok_mem {s : TMState} {now : Nat} {t : TokenStr} {r : Option String}
    {ctx : TokenContext}
    (h : (TokenManager.validate_access_token s now t r).1 = .ok ctx) :
    ∃ jti, (jti, ctx) ∈ s.active_tokens := by
  cases hd : jwtDecodeVerified s.secret_key now t with
  | none => simp only [TokenManager.validate_access_token, hd] at h; simp at h
  | some payload =>
    simp only [TokenManager.validate_access_token, hd] at h
    split at h
    · simp at h
    · split at h
      · simp at h
      · split at h
        · simp at h
        · split at h
          · simp at h
          · next ctxA heqA =>
            split at h
            · simp at h
            · simp at h
              subst h
              exact ⟨_, dget_mem heqA⟩

/-- C2: presenting an already-used refresh token fails with the reuse
error and revokes every access and refresh token of that (client, user)
pair; consequently no token of that pair can validate successfully against
the resulting state. -/
theorem refresh_reuse_revokes_all (s : TMState) (now : Nat) (refresh_token : TokenStr)
    (rd : RefreshData) (resource : Option String) (new_jti new_refresh : String)
    (hR : dget s.refresh_tokens refresh_token = some rd)
    (hused : rd.used = true) :
    (TokenManager.refresh_access_token s now refresh_token resource new_jti new_refresh).1
      = .error .refreshReuse ∧
    (∀ e ∈ (TokenManager.refresh_access_token s now refresh_token resource new_jti
        new_refresh).2.active_tokens,
      ¬(e.2.client_id = rd.client_id ∧ e.2.user_id = rd.user_id)) ∧
    (∀ e ∈ (TokenManager.refresh_access_token s now refresh_token resource new_jti
        new_refresh).2.refresh_tokens,
      ¬(e.2.client_id = rd.client_id ∧ e.2.user_id = rd.user_id)) ∧
    (∀ (t2 : TokenStr) (res2 : Option String) (now2 : Nat) (ctx2 : TokenContext),
      (TokenManager.validate_access_token
        (TokenManager.refresh_access_token s now refresh_token resource new_jti new_refresh).2
        now2 t2 res2).1 = .ok ctx2 →
      ¬(ctx2.client_id = rd.client_id ∧ ctx2.user_id = rd.user_id)) := by
  have hres : TokenManager.refresh_access_token s now refresh_token resource new_jti new_refresh
      = (.error .refreshReuse, TokenManager._revoke_all_client_tokens s rd.client_id rd.user_id)
      := by
    simp [TokenManager.refresh_access_token, hR, hused]
  refine ⟨by rw [hres], ?_, ?_, ?_⟩
  · intro e he
    rw [hres] at he
    simp only [TokenManager._revoke_all_client_tokens] at he
    have := (List.mem_filter.mp he).2
    simp at this
    intro hcon
    rcases this with h | h
    · exact h hcon.1
    · exact h hcon.2
  · intro e he
    rw [hres] at he
    simp only [TokenManager._revoke_all_client_tokens] at he
    have := (List.mem_filter.mp he).2
    simp at this
    intro hcon
    rcases this with h | h
    · exact h hcon.1
    · exact h hcon.2
  · intro t2 res2 now2 ctx2 hval
    obtain ⟨jti2, hmem⟩ := validate_ok_mem hval
    rw [hres] at hmem
    simp only [TokenManager._revoke_all_client_tokens] at hmem
    have := (List.mem_filter.mp hmem).2
    simp at this
    intro hcon
    rcases this with h | h
    · exact h hcon.1
    · exact h hcon.2

/-- Witness for C2: one used refresh token, one live access token and one
other refresh token of the same pair. -/
theorem refresh_reuse_revokes_all_witness :
    (TokenManager.refresh_access_token
      { secret_key := "k", issuer := "iss"
        active_tokens := [("j1",
          { access_token := TokenStr.raw "at", client_id := "c1", user_id := "u1",
            issued_at := 0, jti := "j1" })]
        refresh_tokens :=
          [(TokenStr.raw "r1",
            { client_id := "c1", user_id := "u1", access_token_jti := "j1",
              expires_at := 7200, created_at := 0, used := true }),
           (TokenStr.raw "r2",
            { client_id := "c1", user_id := "u1", access_token_jti := "j9",
              expires_at := 7200, created_at := 0, used := false })] }
      1 (TokenStr.raw "r1") none "jN" "rN").1 = .error .refreshReuse ∧
    (∀ e ∈ (TokenManager.refresh_access_token
      { secret_key := "k", issuer := "iss"
        active_tokens := [("j1",
          { access_token := TokenStr.raw "at", client_id := "c1", user_id := "u1",
            issued_at := 0, jti := "j1" })]
        refresh_tokens :=
          [(TokenStr.raw "r1",
            { client_id := "c1", user_id := "u1", access_token_jti := "j1",
              expires_at := 7200, created_at := 0, used := true }),
           (TokenStr.raw "r2",
            { client_id := "c1", user_id := "u1", access_token_jti := "j9",
              expires_at := 7200, created_at := 0, used := false })] }
      1 (TokenStr.raw "r1") none "jN" "rN").2.active_tokens,
      ¬(e.2.client_id = "c1" ∧ e.2.user_id = "u1")) ∧
    (∀ e ∈ (TokenManager.refresh_access_token
      { secret_key := "k", issuer := "iss"
        active_tokens := [("j1",
          { access_token := TokenStr.raw "at", client_id := "c1", user_id := "u1",
            issued_at := 0, jti := "j1" })]
        refresh_tokens :=
          [(TokenStr.raw "r1",
            { client_id := "c1", user_id := "u1", access_token_jti := "j1",
              expires_at := 7200, created_at := 0, used := true }),
           (TokenStr.raw "r2",
            { client_id := "c1", user_id := "u1", access_token_jti := "j9",
              expires_at := 7200, created_at := 0, used := false })] }
      1 (TokenStr.raw "r1") none "jN" "rN").2.refresh_tokens,
      ¬(e.2.client_id = "c1" ∧ e.2.user_id = "u1")) ∧
    (∀ (t2 : TokenStr) (res2 : Option String) (now2 : Nat) (ctx2 : TokenContext),
      (TokenManager.validate_access_token
        (TokenManager.refresh_access_token
          { secret_key := "k", issuer := "iss"
            active_tokens := [("j1",
              { access_token := TokenStr.raw "at", client_id := "c1", user_id := "u1",
                issued_at := 0, jti := "j1" })]
            refresh_tokens :=
              [(TokenStr.raw "r1",
                { client_id := "c1", user_id := "u1", access_token_jti := "j1",
                  expires_at := 7200, created_at := 0, used := true }),
               (TokenStr.raw "r2",
                { client_id := "c1", user_id := "u1", access_token_jti := "j9",
                  expires_at := 7200, created_at := 0, used := false })] }
          1 (TokenStr.raw "r1") none "jN" "rN").2
        now2 t2 res2).1 = .ok ctx2 →
      ¬(ctx2.client_id = "c1" ∧ ctx2.user_id = "u1")) :=
  refresh_reuse_revokes_all
    { secret_key := "k", issuer := "iss"
      active_tokens := [("j1",
        { access_token := TokenStr.raw "at", client_id := "c1", user_id := "u1",
          issued_at := 0, jti := "j1" })]
      refresh_tokens :=
        [(TokenStr.raw "r1",
          { client_id := "c1", user_id := "u1", access_token_jti := "j1",
            expires_at := 7200, created_at := 0, used := true }),
         (TokenStr.raw "r2",
          { client_id := "c1", user_id := "u1", access_token_jti := "j9",
            expires_at := 7200, created_at := 0, used := false })] }
    1 (TokenStr.raw "r1")
    { client_id := "c1", user_id := "u1", access_token_jti := "j1",
      expires_at := 7200, created_at := 0, used := true }
    none "jN" "rN" (by decide) rfl

/-- C10 (implicit): a successful refresh never propagates the scope of the
original grant — `refresh_access_token` calls `create_access_token`
without a scope, so the returned `TokenContext` has `scope = None` and the
refresh-grant token response omits the `scope` field, whatever scope the
original access token carried. -/
theorem refresh_grant_scope_not_propagated
    (authFn : Authenticator) (ps : ProviderState) (now : Nat) (client_auth : String)
    (cctx : ClientContext) (refresh_token : TokenStr) (rd : RefreshData)
    (resource : Option String) (new_jti new_refresh : String)
    (hauth : authFn client_auth = .ok cctx)
    (hR : dget ps.tm.refresh_tokens refresh_token = some rd)
    (hused : rd.used = false)
    (hexp : now < rd.expires_at) :
    (∃ ctx, (TokenManager.refresh_access_token ps.tm now refresh_token resource new_jti
        new_refresh).1 = .ok ctx ∧ ctx.scope = none) ∧
    (∃ resp, (OAuth21Provider._handle_refresh_token_grant authFn ps now client_auth
        refresh_token resource new_jti new_refresh).1 = .ok resp ∧ resp.scope = none) := by
  have hnle : ¬(rd.expires_at ≤ now) := Nat.not_le.mpr hexp
  constructor
  · simp [TokenManager.refresh_access_token, TokenManager.create_access_token,
      TokenManager.create_refresh_token, hR, hused, hnle]
  · simp [OAuth21Provider._handle_refresh_token_grant, hauth,
      TokenManager.refresh_access_token, TokenManager.create_access_token,
      TokenManager.create_refresh_token, hR, hused, hnle]

/-- Witness for C10: the refresh token was issued alongside an access
token that carried scope `"read write"`; the refreshed context still has
no scope. -/
theorem refresh_grant_scope_not_propagated_witness :
    (∃ ctx, (TokenManager.refresh_access_token c10TM 1 (TokenStr.raw "r1") none "j2" "r2").1
        = .ok ctx ∧ ctx.scope = none) ∧
    (∃ resp, (OAuth21Provider._handle_refresh_token_grant (fun _ => .ok ⟨"c1"⟩) c10PS 1
        "creds" (TokenStr.raw "r1") none "j2" "r2").1 = .ok resp ∧ resp.scope = none) :=
  refresh_grant_scope_not_propagated (fun _ => .ok ⟨"c1"⟩) c10PS 1 "creds" ⟨"c1"⟩
    (TokenStr.raw "r1") c10RD none "j2" "r2" rfl (by decide) rfl (by decide)

/-- C6 (amended): for a token issued with a non-empty resource indicator
`R`, validation against a different non-empty resource fails with the
resource/audience-mismatch `TokenError` (the `Token not valid for
requested resource` raise site) before the token is ever returned.  The
amendment excludes empty-string resources, which Python truthiness treats
as absent (see the counterexample). -/
theorem audience_binding_nonempty (s : TMState) (now now2 : Nat)
    (jti client_id user_id : String) (scope : Option String) (R Rp : String)
    (expires_in? : Option Nat)
    (hR : R ≠ "") (hRp : Rp ≠ "") (hne : Rp ≠ R)
    (hnow : now2 < now + min (expires_in?.getD s.default_token_expiry) 3600) :
    (TokenManager.validate_access_token
      (TokenManager.create_access_token s now jti client_id user_id scope (some R)
        expires_in?).2
      now2
      (TokenManager.create_access_token s now jti client_id user_id scope (some R)
        expires_in?).1.access_token
      (some Rp)).1 = .error .resourceMismatch := by
  have hne2 : ¬(R = Rp) := fun h => hne h.symm
  simp [TokenManager.create_access_token, TokenManager.validate_access_token,
    jwtDecodeVerified, strTruthy, orStr, hR, hRp, hne2, hnow]

/-- Witness for the amended C6 at `R = "https://a"`, `Rp = "https://b"`. -/
theorem audience_binding_nonempty_witness :
    (TokenManager.validate_access_token
      (TokenManager.create_access_token { secret_key := "k", issuer := "iss" } 0 "j1" "c1"
        "u1" none (some "https://a") none).2
      1
      (TokenManager.create_access_token { secret_key := "k", issuer := "iss" } 0 "j1" "c1"
        "u1" none (some "https://a") none).1.access_token
      (some "https://b")).1 = .error .resourceMismatch :=
  audience_binding_nonempty { secret_key := "k", issuer := "iss" } 0 1 "j1" "c1" "u1" none
    "https://a" "https://b" none (by decide) (by decide) (by decide) (by decide)

/-- Counterexample to C6 as stated: the token is issued with resource
indicator `"https://a"`, and validation with the different resource `""`
returns the `TokenContext` successfully instead of failing — the Python
check `if resource:` skips the audience checks for any falsy resource string. -/
theorem audience_binding_counterexample :
    (("" : String) ≠ "https://a") ∧
    (TokenManager.validate_access_token
        (TokenManager.create_access_token { secret_key := "k", issuer := "iss" } 0 "j1" "c1"
          "u1" none (some "https://a") none).2
        1
        (TokenManager.create_access_token { secret_key := "k", issuer := "iss" } 0 "j1" "c1"
          "u1" none (some "https://a") none).1.access_token
        (some "")).1
      = .ok (TokenManager.create_access_token { secret_key := "k", issuer := "iss" } 0 "j1"
          "c1" "u1" none (some "https://a") none).1 := by
  constructor
  · decide
  · rfl

theorem handle_authorization_request_ok (s : ProviderState) (t0 : Nat)
    (auth_code client_id redirect_uri : String) (scope st : Option String)
    (challenge method : String) (resource0 : Option String) (cfg : ClientConfig)
    (hcfg : dget s.client_registry client_id = some cfg)
    (hred : cfg.redirect_uris.contains redirect_uri = true)
    (hch : challenge ≠ "")
    (hm : method = "S256" ∨ method = "plain") :
    OAuth21Provider.handle_authorization_request s t0 auth_code client_id redirect_uri scope
      st (some challenge) (some method) resource0
    = (.ok { redirect_uri := redirect_uri, code := auth_code, state := st }, { s with authorization_codes := dinsert auth_code (mkAuthCode client_id redirect_uri scope challenge method resource0 t0) s.authorization_codes }) := by
  have hch2 : strTruthy (some challenge) = true := by simp [strTruthy, hch]
  have hm2 : ((some method == some "S256") || (some method == some "plain")) = true := by
    rcases hm with h | h <;> simp [h]
  have hred2 : redirect_uri ∈ cfg.redirect_uris := by simpa using hred
  have hm3 : ¬(¬method = "S256" ∧ ¬method = "plain") := by
    rcases hm with h | h <;> simp [h]
  simp [OAuth21Provider.handle_authorization_request, OAuth21Provider._validate_redirect_uri,
    hcfg, hred, hch2, hm2, hred2, hm3, mkAuthCode]

theorem code_grant_ok (authFn : Authenticator) (s : ProviderState) (t1 : Nat)
    (client_auth code redirect_uri verifier : String) (res : Option String)
    (jti refresh : String) (ad : AuthCodeData) (cctx : ClientContext)
    (hauth : authFn client_auth = .ok cctx)
    (hlookup : dget s.authorization_codes code = some ad)
    (hused : ad.used = false)
    (hexp : ¬(ad.expires_at < t1))
    (hcli : ad.client_id = cctx.client_id)
    (hred : ad.redirect_uri = redirect_uri)
    (hver : PKCEVerifier.verify_code_challenge verifier ad.code_challenge
      ad.code_challenge_method = true) :
    (∃ tr, (OAuth21Provider._handle_authorization_code_grant authFn s t1 client_auth code
        redirect_uri verifier res jti refresh).1 = .ok tr) ∧
    (OAuth21Provider._handle_authorization_code_grant authFn s t1 client_auth code
        redirect_uri verifier res jti refresh).2.authorization_codes
      = dinsert code { ad with used := true } s.authorization_codes := by
  constructor
  · simp [OAuth21Provider._handle_authorization_code_grant, hauth, hlookup, hused, hexp,
      hcli, hred, hver]
  · simp [OAuth21Provider._handle_authorization_code_grant, hauth, hlookup, hused, hexp,
      hcli, hred, hver]

theorem code_grant_used (authFn : Authenticator) (s : ProviderState) (t : Nat)
    (client_auth code redirect_uri verifier : String) (res : Option String)
    (jti refresh : String) (ad : AuthCodeData) (cctx : ClientContext)
    (hauth : authFn client_auth = .ok cctx)
    (hlookup : dget s.authorization_codes code = some ad)
    (hused : ad.used = true) :
    (OAuth21Provider._handle_authorization_code_grant authFn s t client_auth code
        redirect_uri verifier res jti refresh).1
      = .error ⟨.invalid_grant, "Authorization code already used"⟩ := by
  simp [OAuth21Provider._handle_authorization_code_grant, hauth, hlookup, hused]

/-- C1: an issued authorization code is single-use.  The first exchange —
with succeeding client authentication for the issuing client, the issued
redirect URI, a verifier matching the stored PKCE challenge, within the
10-minute window — succeeds and returns tokens; after it, any further
exchange of the same code through `handle_token_request` (any verifier,
redirect URI, resource, time and successfully authenticated client) fails
with `invalid_grant`. -/
theorem single_use_authorization_code
    (authFn : Authenticator) (s0 : ProviderState) (t0 t1 : Nat)
    (auth_code client_id redirect_uri : String) (scope st : Option String)
    (challenge method : String) (resource0 : Option String) (cfg : ClientConfig)
    (client_auth verifier : String) (rt : TokenStr) (resource1 : Option String)
    (jti1 refresh1 : String)
    (hcfg : dget s0.client_registry client_id = some cfg)
    (hred : cfg.redirect_uris.contains redirect_uri = true)
    (hch : challenge ≠ "")
    (hm : method = "S256" ∨ method = "plain")
    (hauth : authFn client_auth = .ok ⟨client_id⟩)
    (hver : PKCEVerifier.verify_code_challenge verifier challenge method = true)
    (ht1 : t1 ≤ t0 + 600) :
    (∃ r, (OAuth21Provider.handle_authorization_request s0 t0 auth_code client_id
        redirect_uri scope st (some challenge) (some method) resource0).1 = .ok r) ∧
    (∃ tr, (OAuth21Provider.handle_token_request authFn
        (OAuth21Provider.handle_authorization_request s0 t0 auth_code client_id redirect_uri
          scope st (some challenge) (some method) resource0).2
        t1 "authorization_code" client_auth auth_code redirect_uri verifier rt resource1
        jti1 refresh1).1 = .ok tr) ∧
    (∀ (client_auth2 verifier2 redirect2 : String) (rt2 : TokenStr)
        (resource2 : Option String) (t2 : Nat) (jti2 refresh2 : String)
        (cctx2 : ClientContext),
      authFn client_auth2 = .ok cctx2 →
      (OAuth21Provider.handle_token_request authFn
        (OAuth21Provider.handle_token_request authFn
          (OAuth21Provider.handle_authorization_request s0 t0 auth_code client_id
            redirect_uri scope st (some challenge) (some method) resource0).2
          t1 "authorization_code" client_auth auth_code redirect_uri verifier rt resource1
          jti1 refresh1).2
        t2 "authorization_code" client_auth2 auth_code redirect2 verifier2 rt2 resource2
        jti2 refresh2).1
      = .error ⟨.invalid_grant, "Authorization code already used"⟩) := by
  have hiss := handle_authorization_request_ok s0 t0 auth_code client_id redirect_uri scope
    st challenge method resource0 cfg hcfg hred hch hm
  have hdispatch : ∀ (s : ProviderState) (t : Nat) (ca cd rd vf : String) (rt' : TokenStr)
      (rs : Option String) (j rf : String),
      OAuth21Provider.handle_token_request authFn s t "authorization_code" ca cd rd vf rt'
        rs j rf
      = OAuth21Provider._handle_authorization_code_grant authFn s t ca cd rd vf rs j rf := by
    intro s t ca cd rd vf rt' rs j rf
    simp [OAuth21Provider.handle_token_request]
  have hg := code_grant_ok authFn
    { s0 with authorization_codes := dinsert auth_code (mkAuthCode client_id redirect_uri scope challenge method resource0 t0) s0.authorization_codes }
    t1 client_auth auth_code redirect_uri verifier resource1 jti1 refresh1
    (mkAuthCode client_id redirect_uri scope challenge method resource0 t0) ⟨client_id⟩
    hauth (dget_dinsert_self _ _ _) rfl (by simp [mkAuthCode]; omega) rfl rfl hver
  refine ⟨⟨_, by rw [hiss]⟩, ?_, ?_⟩
  · rw [hiss, hdispatch]
    exact hg.1
  · intro client_auth2 verifier2 redirect2 rt2 resource2 t2 jti2 refresh2 cctx2 hca2
    rw [hiss, hdispatch, hdispatch]
    exact code_grant_used authFn _ t2 client_auth2 auth_code redirect2 verifier2 resource2
      jti2 refresh2 { (mkAuthCode client_id redirect_uri scope challenge method resource0 t0) with used := true }
      cctx2 hca2 (by rw [hg.2]; exact dget_dinsert_self _ _ _) rfl

/-- Witness for C1: client `c1`, a `plain` PKCE challenge, issuance at
`t = 0` and exchanges at `t = 1` and arbitrary later times. -/
theorem single_use_authorization_code_witness :
    (∃ r, (OAuth21Provider.handle_authorization_request exProviderState 0 "CODE" "c1"
        "https://app.example/cb" none none (some exVerifier) (some "plain") none).1
        = .ok r) ∧
    (∃ tr, (OAuth21Provider.handle_token_request exAuthFn
        (OAuth21Provider.handle_authorization_request exProviderState 0 "CODE" "c1"
          "https://app.example/cb" none none (some exVerifier) (some "plain") none).2
        1 "authorization_code" "ca" "CODE" "https://app.example/cb" exVerifier
        (TokenStr.raw "x") none "J1" "R1").1 = .ok tr) ∧
    (∀ (client_auth2 verifier2 redirect2 : String) (rt2 : TokenStr)
        (resource2 : Option String) (t2 : Nat) (jti2 refresh2 : String)
        (cctx2 : ClientContext),
      exAuthFn client_auth2 = .ok cctx2 →
      (OAuth21Provider.handle_token_request exAuthFn
        (OAuth21Provider.handle_token_request exAuthFn
          (OAuth21Provider.handle_authorization_request exProviderState 0 "CODE" "c1"
            "https://app.example/cb" none none (some exVerifier) (some "plain") none).2
          1 "authorization_code" "ca" "CODE" "https://app.example/cb" exVerifier
          (TokenStr.raw "x") none "J1" "R1").2
        t2 "authorization_code" client_auth2 "CODE" redirect2 verifier2 rt2 resource2
        jti2 refresh2).1
      = .error ⟨.invalid_grant, "Authorization code already used"⟩) :=
  single_use_authorization_code exAuthFn exProviderState 0 1 "CODE" "c1"
    "https://app.example/cb" none none exVerifier "plain" none
    ⟨["https://app.example/cb"]⟩ "ca" exVerifier (TokenStr.raw "x") none "J1" "R1"
    (by decide) (by decide) (by decide) (Or.inr rfl) rfl (by decide) (by decide)

/-- C3 (code bug): after a successful exchange of code `CODE` mints the
access token with jti `J1`, a second exchange of the same code fails with
`invalid_grant` but the previously issued access token is NOT revoked — it
is still in the active-token store.  The comment in the source at the reuse
branch (`# Code reuse detected - revoke any issued tokens`) announces the
revocation the code never performs. -/
theorem code_reuse_leaves_tokens_active :
    (dget (OAuth21Provider.handle_token_request exAuthFn
        (OAuth21Provider.handle_authorization_request exProviderState 0 "CODE" "c1"
          "https://app.example/cb" none none (some exVerifier) (some "plain") none).2
        1 "authorization_code" "ca" "CODE" "https://app.example/cb" exVerifier
        (TokenStr.raw "x") none "J1" "R1").2.tm.active_tokens "J1").isSome = true ∧
    (OAuth21Provider.handle_token_request exAuthFn
        (OAuth21Provider.handle_token_request exAuthFn
          (OAuth21Provider.handle_authorization_request exProviderState 0 "CODE" "c1"
            "https://app.example/cb" none none (some exVerifier) (some "plain") none).2
          1 "authorization_code" "ca" "CODE" "https://app.example/cb" exVerifier
          (TokenStr.raw "x") none "J1" "R1").2
        2 "authorization_code" "ca" "CODE" "https://app.example/cb" exVerifier
        (TokenStr.raw "x") none "J2" "R2").1
      = .error ⟨.invalid_grant, "Authorization code already used"⟩ ∧
    (dget (OAuth21Provider.handle_token_request exAuthFn
        (OAuth21Provider.handle_token_request exAuthFn
          (OAuth21Provider.handle_authorization_request exProviderState 0 "CODE" "c1"
            "https://app.example/cb" none none (some exVerifier) (some "plain") none).2
          1 "authorization_code" "ca" "CODE" "https://app.example/cb" exVerifier
          (TokenStr.raw "x") none "J1" "R1").2
        2 "authorization_code" "ca" "CODE" "https://app.example/cb" exVerifier
        (TokenStr.raw "x") none "J2" "R2").2.tm.active_tokens "J1").isSome = true := by
  refine ⟨by decide, by decide, by decide⟩

theorem refresh_grant_ok (authFn : Authenticator) (s : ProviderState) (now : Nat)
    (client_auth : String) (R : TokenStr) (rd : RefreshData) (res : Option String)
    (jti r : String) (cctx : ClientContext)
    (hauth : authFn client_auth = .ok cctx)
    (hR : dget s.tm.refresh_tokens R = some rd)
    (hused : rd.used = false)
    (hexp : now < rd.expires_at) :
    (∃ resp, (OAuth21Provider._handle_refresh_token_grant authFn s now client_auth R res
        jti r).1 = .ok resp ∧ resp.refresh_token = TokenStr.raw r) ∧
    (OAuth21Provider._handle_refresh_token_grant authFn s now client_auth R res
        jti r).2.tm.refresh_tokens
      = derase R (dinsert (TokenStr.raw r) { client_id := rd.client_id, user_id := rd.user_id, access_token_jti := jti, expires_at := now + s.tm.refresh_token_expiry, created_at := now, used := false } (dinsert R { rd with used := true } s.tm.refresh_tokens)) := by
  have hnle : ¬(rd.expires_at ≤ now) := Nat.not_le.mpr hexp
  constructor
  · simp [OAuth21Provider._handle_refresh_token_grant, hauth,
      TokenManager.refresh_access_token, TokenManager.create_access_token,
      TokenManager.create_refresh_token, hR, hused, hnle]
  · simp [OAuth21Provider._handle_refresh_token_grant, hauth,
      TokenManager.refresh_access_token, TokenManager.create_access_token,
      TokenManager.create_refresh_token, hR, hused, hnle]

theorem refresh_grant_invalid (authFn : Authenticator) (s : ProviderState) (now : Nat)
    (client_auth : String) (R : TokenStr) (res : Option String) (jti r : String)
    (cctx : ClientContext)
    (hauth : authFn client_auth = .ok cctx)
    (hR : dget s.tm.refresh_tokens R = none) :
    (OAuth21Provider._handle_refresh_token_grant authFn s now client_auth R res jti r).1
      = .error ⟨.invalid_grant, "Invalid refresh token"⟩ := by
  simp [OAuth21Provider._handle_refresh_token_grant, hauth,
    TokenManager.refresh_access_token, hR, tokenErrMsg]

/-- C4: refresh rotation.  A successful `refresh_token` grant consumes the
presented refresh token: any later `refresh_token` grant presenting the
original token fails with `invalid_grant`, and the newly issued refresh
token can itself be redeemed successfully exactly once — redeeming it
succeeds, after which presenting it again fails with `invalid_grant`. -/
theorem refresh_rotation
    (authFn : Authenticator) (s0 : ProviderState) (now : Nat) (client_auth : String)
    (cctx : ClientContext) (R : TokenStr) (rd : RefreshData) (res1 : Option String)
    (jti1 r1 : String)
    (hauth1 : authFn client_auth = .ok cctx)
    (hR : dget s0.tm.refresh_tokens R = some rd)
    (hused : rd.used = false)
    (hexp : now < rd.expires_at)
    (hfresh : TokenStr.raw r1 ≠ R) :
    (∃ resp, (OAuth21Provider.handle_token_request authFn s0 now "refresh_token" client_auth
        "" "" "" R res1 jti1 r1).1 = .ok resp ∧ resp.refresh_token = TokenStr.raw r1) ∧
    (∀ (ca2 : String) (c2 : ClientContext) (t2 : Nat) (res2 : Option String) (j2 r2 : String),
      authFn ca2 = .ok c2 →
      (OAuth21Provider.handle_token_request authFn
        (OAuth21Provider.handle_token_request authFn s0 now "refresh_token" client_auth
          "" "" "" R res1 jti1 r1).2
        t2 "refresh_token" ca2 "" "" "" R res2 j2 r2).1
        = .error ⟨.invalid_grant, "Invalid refresh token"⟩) ∧
    (∀ (ca3 : String) (c3 : ClientContext) (t3 : Nat) (res3 : Option String) (j3 r3 : String),
      authFn ca3 = .ok c3 → t3 < now + s0.tm.refresh_token_expiry →
      TokenStr.raw r3 ≠ TokenStr.raw r1 →
      (∃ resp3, (OAuth21Provider.handle_token_request authFn
          (OAuth21Provider.handle_token_request authFn s0 now "refresh_token" client_auth
            "" "" "" R res1 jti1 r1).2
          t3 "refresh_token" ca3 "" "" "" (TokenStr.raw r1) res3 j3 r3).1 = .ok resp3) ∧
      (∀ (ca4 : String) (c4 : ClientContext) (t4 : Nat) (res4 : Option String)
          (j4 r4 : String),
        authFn ca4 = .ok c4 →
        (OAuth21Provider.handle_token_request authFn
          (OAuth21Provider.handle_token_request authFn
            (OAuth21Provider.handle_token_request authFn s0 now "refresh_token" client_auth
              "" "" "" R res1 jti1 r1).2
            t3 "refresh_token" ca3 "" "" "" (TokenStr.raw r1) res3 j3 r3).2
          t4 "refresh_token" ca4 "" "" "" (TokenStr.raw r1) res4 j4 r4).1
          = .error ⟨.invalid_grant, "Invalid refresh token"⟩)) := by
  have hdisp : ∀ (s : ProviderState) (t : Nat) (ca : String) (rt' : TokenStr)
      (rs : Option String) (j rf : String),
      OAuth21Provider.handle_token_request authFn s t "refresh_token" ca "" "" "" rt' rs j rf
      = OAuth21Provider._handle_refresh_token_grant authFn s t ca rt' rs j rf := by
    intro s t ca rt' rs j rf
    simp [OAuth21Provider.handle_token_request]
  simp only [hdisp]
  have hg1 := refresh_grant_ok authFn s0 now client_auth R rd res1 jti1 r1 cctx hauth1 hR
    hused hexp
  refine ⟨hg1.1, ?_, ?_⟩
  · intro ca2 c2 t2 res2 j2 r2 hca2
    exact refresh_grant_invalid authFn _ t2 ca2 R res2 j2 r2 c2 hca2
      (by rw [hg1.2]; exact dget_derase_self _ _)
  · intro ca3 c3 t3 res3 j3 r3 hca3 ht3 hner
    have hlook3 : dget (OAuth21Provider._handle_refresh_token_grant authFn s0 now client_auth
        R res1 jti1 r1).2.tm.refresh_tokens (TokenStr.raw r1)
        = some { client_id := rd.client_id, user_id := rd.user_id, access_token_jti := jti1, expires_at := now + s0.tm.refresh_token_expiry, created_at := now, used := false } := by
      rw [hg1.2, dget_derase_ne _ hfresh, dget_dinsert_self]
    have hg3 := refresh_grant_ok authFn _ t3 ca3 (TokenStr.raw r1)
      { client_id := rd.client_id, user_id := rd.user_id, access_token_jti := jti1, expires_at := now + s0.tm.refresh_token_expiry, created_at := now, used := false }
      res3 j3 r3 c3 hca3 hlook3 rfl ht3
    constructor
    · obtain ⟨resp3, hr3, _⟩ := hg3.1
      exact ⟨resp3, hr3⟩
    · intro ca4 c4 t4 res4 j4 r4 hca4
      exact refresh_grant_invalid authFn _ t4 ca4 (TokenStr.raw r1) res4 j4 r4 c4 hca4
        (by rw [hg3.2]; exact dget_derase_self _ _)

/-- Witness for C4: rotate `RT0` into `RT1` at `t = 1`, replay `RT0`,
redeem `RT1`, replay `RT1`. -/
theorem refresh_rotation_witness :
    (∃ resp, (OAuth21Provider.handle_token_request exAuthFn c4PS 1 "refresh_token" "ca"
        "" "" "" (TokenStr.raw "RT0") none "J1" "RT1").1 = .ok resp ∧
        resp.refresh_token = TokenStr.raw "RT1") ∧
    (∀ (ca2 : String) (c2 : ClientContext) (t2 : Nat) (res2 : Option String) (j2 r2 : String),
      exAuthFn ca2 = .ok c2 →
      (OAuth21Provider.handle_token_request exAuthFn
        (OAuth21Provider.handle_token_request exAuthFn c4PS 1 "refresh_token" "ca"
          "" "" "" (TokenStr.raw "RT0") none "J1" "RT1").2
        t2 "refresh_token" ca2 "" "" "" (TokenStr.raw "RT0") res2 j2 r2).1
        = .error ⟨.invalid_grant, "Invalid refresh token"⟩) ∧
    (∀ (ca3 : String) (c3 : ClientContext) (t3 : Nat) (res3 : Option String) (j3 r3 : String),
      exAuthFn ca3 = .ok c3 → t3 < 1 + c4PS.tm.refresh_token_expiry →
      TokenStr.raw r3 ≠ TokenStr.raw "RT1" →
      (∃ resp3, (OAuth21Provider.handle_token_request exAuthFn
          (OAuth21Provider.handle_token_request exAuthFn c4PS 1 "refresh_token" "ca"
            "" "" "" (TokenStr.raw "RT0") none "J1" "RT1").2
          t3 "refresh_token" ca3 "" "" "" (TokenStr.raw "RT1") res3 j3 r3).1 = .ok resp3) ∧
      (∀ (ca4 : String) (c4 : ClientContext) (t4 : Nat) (res4 : Option String)
          (j4 r4 : String),
        exAuthFn ca4 = .ok c4 →
        (OAuth21Provider.handle_token_request exAuthFn
          (OAuth21Provider.handle_token_request exAuthFn
            (OAuth21Provider.handle_token_request exAuthFn c4PS 1 "refresh_token" "ca"
              "" "" "" (TokenStr.raw "RT0") none "J1" "RT1").2
            t3 "refresh_token" ca3 "" "" "" (TokenStr.raw "RT1") res3 j3 r3).2
          t4 "refresh_token" ca4 "" "" "" (TokenStr.raw "RT1") res4 j4 r4).1
          = .error ⟨.invalid_grant, "Invalid refresh token"⟩)) :=
  refresh_rotation exAuthFn c4PS 1 "ca" ⟨"c1"⟩ (TokenStr.raw "RT0") c4RD none "J1" "RT1"
    rfl (by decide) rfl (by decide) (by decide)

theorem validateRedirectUri_ok_good {u : String}
    (h : DynamicClientRegistry.validateRedirectUri u = .ok ()) :
    goodRedirectUri u = true := by
  simp only [DynamicClientRegistry.validateRedirectUri] at h
  split at h
  · simp at h
  · split at h
    · simp at h
    · next h1 h2 =>
      simp only [goodRedirectUri]
      revert h2
      cases hs : (urlparse u).scheme == "https" <;>
        cases hl : hostnameOf (urlparse u).netloc == some "localhost" <;>
        cases hl2 : hostnameOf (urlparse u).netloc == some "127.0.0.1" <;>
        simp [hs, hl, hl2]

theorem validateRedirectUris_ok : ∀ {l vs : List String},
    DynamicClientRegistry.validateRedirectUris l = .ok vs →
    vs = l ∧ ∀ u ∈ l, goodRedirectUri u = true := by
  intro l
  induction l with
  | nil =>
    intro vs h
    simp [DynamicClientRegistry.validateRedirectUris] at h
    refine ⟨h, ?_⟩
    intro u hu
    simp at hu
  | cons hd tl ih =>
    intro vs h
    unfold DynamicClientRegistry.validateRedirectUris at h
    split at h
    · simp at h
    · next hh =>
      split at h
      · simp at h
      · next hvs =>
        simp at h
        obtain ⟨hvs1, hall⟩ := ih hvs
        have hgood : goodRedirectUri hd = true := by
          rcases hu : DynamicClientRegistry.validateRedirectUri hd with e | u0
          · rw [hu] at hh; simp at hh
          · exact validateRedirectUri_ok_good (by rw [hu])
        subst hvs1
        constructor
        · rw [← h]
        · intro u hu
          rcases List.mem_cons.mp hu with h2 | h2
          · rw [h2]; exact hgood
          · exact hall u h2

theorem validateRedirectUris_bad : ∀ {l : List String} {u : String},
    u ∈ l → goodRedirectUri u = false →
    ∃ d, DynamicClientRegistry.validateRedirectUris l
      = .error ⟨"invalid_redirect_uri", d⟩ := by
  intro l
  induction l with
  | nil => intro u hu; simp at hu
  | cons hd tl ih =>
    intro u hu hbad
    rcases hh : DynamicClientRegistry.validateRedirectUri hd with e | u0
    · have hcode : e.error = "invalid_redirect_uri" := by
        simp only [DynamicClientRegistry.validateRedirectUri] at hh
        split at hh
        · injection hh with hh; rw [← hh]
        · split at hh
          · injection hh with hh; rw [← hh]
          · simp at hh
      refine ⟨e.description, ?_⟩
      unfold DynamicClientRegistry.validateRedirectUris
      rw [hh]
      cases e
      simp at hcode
      simp [hcode]
    · rcases List.mem_cons.mp hu with h2 | h2
      · exfalso
        have hg : goodRedirectUri hd = true := validateRedirectUri_ok_good
          (show DynamicClientRegistry.validateRedirectUri hd = Except.ok () by rw [hh])
        rw [h2] at hbad
        rw [hg] at hbad
        exact Bool.noConfusion hbad
      · obtain ⟨d, hd2⟩ := ih h2 hbad
        refine ⟨d, ?_⟩
        unfold DynamicClientRegistry.validateRedirectUris
        rw [hh, hd2]

theorem validated_redirect_uris_good {req : RegRequest} {is_update : Bool}
    {vd : ValidatedData}
    (h : DynamicClientRegistry._validate_registration_request req is_update = .ok vd) :
    ∀ l, vd.redirect_uris = some l → l ≠ [] ∧ ∀ u ∈ l, goodRedirectUri u = true := by
  intro l hl
  cases htru : listTruthy req.redirect_uris with
  | false =>
    simp only [DynamicClientRegistry._validate_registration_request, htru, Bool.not_false,
      Bool.and_true, Bool.not_true, Bool.and_false, Bool.false_eq_true, if_false] at h
    split at h
    · simp at h
    · split at h
      · simp at h
      · split at h
        · simp at h
        · split at h
          · simp at h
          · injection h with h
            rw [← h] at hl
            simp at hl
  | true =>
    have hne : req.redirect_uris.getD [] ≠ [] := by
      cases hru : req.redirect_uris with
      | none => rw [hru] at htru; simp [listTruthy] at htru
      | some l0 =>
        rw [hru] at htru
        simp only [listTruthy, Option.getD]
        intro hh
        rw [hh] at htru
        simp [listTruthy] at htru
    simp only [DynamicClientRegistry._validate_registration_request, htru, Bool.not_true,
      Bool.and_false, Bool.false_eq_true, if_false, eq_self_iff_true, if_true] at h
    split at h
    · simp at h
    · next vs2 hvs =>
      split at h
      · simp at h
      · split at h
        · simp at h
        · split at h
          · simp at h
          · split at hvs
            · simp at hvs
            · next vs3 hvs3 =>
              injection hvs with hvs
              injection h with h
              obtain ⟨hvseq, hgood⟩ := validateRedirectUris_ok hvs3
              rw [← h] at hl
              simp at hl
              rw [← hvs] at hl
              simp at hl
              rw [← hl, hvseq]
              exact ⟨hne, hgood⟩

theorem validated_uris_some_of_register {req : RegRequest} {vd : ValidatedData}
    (h : DynamicClientRegistry._validate_registration_request req false = .ok vd) :
    ∃ l, vd.redirect_uris = some l := by
  cases htru : listTruthy req.redirect_uris with
  | false => simp [DynamicClientRegistry._validate_registration_request, htru] at h
  | true =>
    simp only [DynamicClientRegistry._validate_registration_request, htru, Bool.not_true,
      Bool.and_false, Bool.false_eq_true, if_false, eq_self_iff_true, if_true] at h
    split at h
    · simp at h
    · next vs2 hvs =>
      split at h
      · simp at h
      · split at h
        · simp at h
        · split at h
          · simp at h
          · split at hvs
            · simp at hvs
            · next vs3 hvs3 =>
              injection hvs with hvs
              injection h with h
              refine ⟨vs3, ?_⟩
              rw [← h]
              simpa using hvs.symm

theorem validate_request_bad_uri (is_update : Bool) {req : RegRequest} {uris : List String}
    {u : String}
    (hr : req.redirect_uris = some uris) (hm : u ∈ uris) (hbad : goodRedirectUri u = false) :
    ∃ d, DynamicClientRegistry._validate_registration_request req is_update
      = .error ⟨"invalid_redirect_uri", d⟩ := by
  have hne : uris ≠ [] := by intro hh; rw [hh] at hm; simp at hm
  have htru : listTruthy req.redirect_uris = true := by
    rw [hr]
    simp [listTruthy, List.isEmpty_iff, hne]
  have htru2 : listTruthy (some uris) = true := by rw [← hr]; exact htru
  obtain ⟨d, hd⟩ := validateRedirectUris_bad hm hbad
  refine ⟨d, ?_⟩
  simp [DynamicClientRegistry._validate_registration_request, htru, htru2, hr, hd]

theorem validate_registration_token_clients (s : RegState) (now : Nat)
    (token client_id : String) :
    (DynamicClientRegistry._validate_registration_token s now token client_id).2.registered_clients
      = s.registered_clients := by
  unfold DynamicClientRegistry._validate_registration_token
  split
  · rfl
  · split
    · rfl
    · split
      · rfl
      · rfl

/-- C9: the registry invariant — every stored `ClientRegistration` has a
non-empty `redirect_uris` list of HTTPS-or-loopback URIs — is preserved by
`register_client` and `update_client`; any failing call leaves
`registered_clients` unchanged; and a request containing a non-HTTPS,
non-loopback redirect URI makes registration fail with an
`invalid_redirect_uri` error (and likewise an authorized update of an
existing client). -/
theorem registry_redirect_invariant
    (s : RegState) (now : Nat) (cid sec rtok : String) (req : RegRequest)
    (client_id token : String)
    (hinv : RedirectInv s.registered_clients) :
    RedirectInv
      (DynamicClientRegistry.register_client s now cid sec rtok req).2.registered_clients ∧
    RedirectInv
      (DynamicClientRegistry.update_client s now client_id token req).2.registered_clients ∧
    (∀ e, (DynamicClientRegistry.register_client s now cid sec rtok req).1 = .error e →
      (DynamicClientRegistry.register_client s now cid sec rtok req).2.registered_clients
        = s.registered_clients) ∧
    (∀ e, (DynamicClientRegistry.update_client s now client_id token req).1 = .error e →
      (DynamicClientRegistry.update_client s now client_id token req).2.registered_clients
        = s.registered_clients) ∧
    (∀ uris u, req.redirect_uris = some uris → u ∈ uris → goodRedirectUri u = false →
      (∃ d, (DynamicClientRegistry.register_client s now cid sec rtok req).1
          = .error ⟨"invalid_redirect_uri", d⟩) ∧
      ((DynamicClientRegistry._validate_registration_token s now token client_id).1 = true →
        (dget s.registered_clients client_id).isSome = true →
        ∃ d, (DynamicClientRegistry.update_client s now client_id token req).1
          = .error ⟨"invalid_redirect_uri", d⟩)) := by
  have hcl := validate_registration_token_clients s now token client_id
  have hregInv : RedirectInv
      (DynamicClientRegistry.register_client s now cid sec rtok req).2.registered_clients := by
    rcases hv : DynamicClientRegistry._validate_registration_request req false with e | vd
    · simp only [DynamicClientRegistry.register_client, hv]
      exact hinv
    · intro e2 he2
      simp only [DynamicClientRegistry.register_client, hv] at he2
      rcases mem_dinsert he2 with he3 | he3
      · obtain ⟨l, hl⟩ := validated_uris_some_of_register hv
        obtain ⟨hlne, hlgood⟩ := validated_redirect_uris_good hv l hl
        rw [he3]
        constructor
        · simpa [hl] using hlne
        · intro u hu
          apply hlgood
          simpa [hl] using hu
      · exact hinv e2 he3
  have hupdInv : RedirectInv
      (DynamicClientRegistry.update_client s now client_id token req).2.registered_clients := by
    cases htok : (DynamicClientRegistry._validate_registration_token s now token client_id).1 with
    | false =>
      simp only [DynamicClientRegistry.update_client, htok, Bool.not_false, if_true]
      rw [hcl]
      exact hinv
    | true =>
      cases hreg : dget (DynamicClientRegistry._validate_registration_token s now token
          client_id).2.registered_clients client_id with
      | none =>
        simp only [DynamicClientRegistry.update_client, htok, Bool.not_true,
          Bool.false_eq_true, if_false, hreg]
        rw [hcl]
        exact hinv
      | some reg =>
        rcases hv2 : DynamicClientRegistry._validate_registration_request req true with e | vd
        · simp only [DynamicClientRegistry.update_client, htok, Bool.not_true,
            Bool.false_eq_true, if_false, hreg, hv2]
          rw [hcl]
          exact hinv
        · intro e2 he2
          simp only [DynamicClientRegistry.update_client, htok, Bool.not_true,
            Bool.false_eq_true, if_false, hreg, hv2] at he2
          rw [hcl] at he2
          rcases mem_dinsert he2 with he3 | he3
          · rw [he3]
            cases hvu : vd.redirect_uris with
            | some l =>
              obtain ⟨hlne, hlgood⟩ := validated_redirect_uris_good hv2 l hvu
              constructor
              · simpa [hvu] using hlne
              · intro u hu
                apply hlgood
                simpa [hvu] using hu
            | none =>
              have hmem : (client_id, reg) ∈ s.registered_clients := by
                rw [hcl] at hreg
                exact dget_mem hreg
              obtain ⟨hne2, hgood2⟩ := hinv _ hmem
              constructor
              · simpa [hvu] using hne2
              · intro u hu
                apply hgood2
                simpa [hvu] using hu
          · exact hinv e2 he3
  have hregUnch : ∀ e,
      (DynamicClientRegistry.register_client s now cid sec rtok req).1 = .error e →
      (DynamicClientRegistry.register_client s now cid sec rtok req).2.registered_clients
        = s.registered_clients := by
    intro e he
    rcases hv : DynamicClientRegistry._validate_registration_request req false with e0 | vd
    · simp [DynamicClientRegistry.register_client, hv]
    · simp [DynamicClientRegistry.register_client, hv] at he
  have hupdUnch : ∀ e,
      (DynamicClientRegistry.update_client s now client_id token req).1 = .error e →
      (DynamicClientRegistry.update_client s now client_id token req).2.registered_clients
        = s.registered_clients := by
    intro e he
    cases htok : (DynamicClientRegistry._validate_registration_token s now token client_id).1 with
    | false =>
      simp only [DynamicClientRegistry.update_client, htok, Bool.not_false, if_true]
      exact hcl
    | true =>
      cases hreg : dget (DynamicClientRegistry._validate_registration_token s now token
          client_id).2.registered_clients client_id with
      | none =>
        simp only [DynamicClientRegistry.update_client, htok, Bool.not_true,
          Bool.false_eq_true, if_false, hreg]
        exact hcl
      | some reg =>
        rcases hv2 : DynamicClientRegistry._validate_registration_request req true with e0 | vd
        · simp only [DynamicClientRegistry.update_client, htok, Bool.not_true,
            Bool.false_eq_true, if_false, hreg, hv2]
          exact hcl
        · simp only [DynamicClientRegistry.update_client, htok, Bool.not_true,
            Bool.false_eq_true, if_false, hreg, hv2] at he
          simp at he
  refine ⟨hregInv, hupdInv, hregUnch, hupdUnch, ?_⟩
  intro uris u hru hmu hbadu
  constructor
  · obtain ⟨d, hd⟩ := validate_request_bad_uri false hru hmu hbadu
    refine ⟨d, ?_⟩
    simp [DynamicClientRegistry.register_client, hd]
  · intro htok hsome
    obtain ⟨reg, hreg⟩ := Option.isSome_iff_exists.mp hsome
    obtain ⟨d, hd⟩ := validate_request_bad_uri true hru hmu hbadu
    refine ⟨d, ?_⟩
    have hreg2 : dget (DynamicClientRegistry._validate_registration_token s now token
        client_id).2.registered_clients client_id = some reg := by
      rw [hcl]
      exact hreg
    simp [DynamicClientRegistry.update_client, htok, hreg2, hd]

/-- Witness for C9 at an empty registry, a blank request, and fresh
generated credentials. -/
theorem registry_redirect_invariant_witness :
    RedirectInv
      (DynamicClientRegistry.register_client { issuer := "iss" } 0 "c" "s" "t"
        {}).2.registered_clients ∧
    RedirectInv
      (DynamicClientRegistry.update_client { issuer := "iss" } 0 "c" "t"
        {}).2.registered_clients ∧
    (∀ e, (DynamicClientRegistry.register_client { issuer := "iss" } 0 "c" "s" "t" {}).1
        = .error e →
      (DynamicClientRegistry.register_client { issuer := "iss" } 0 "c" "s" "t"
        {}).2.registered_clients
        = ({ issuer := "iss" } : RegState).registered_clients) ∧
    (∀ e, (DynamicClientRegistry.update_client { issuer := "iss" } 0 "c" "t" {}).1
        = .error e →
      (DynamicClientRegistry.update_client { issuer := "iss" } 0 "c" "t"
        {}).2.registered_clients
        = ({ issuer := "iss" } : RegState).registered_clients) ∧
    (∀ uris u, ({} : RegRequest).redirect_uris = some uris → u ∈ uris →
        goodRedirectUri u = false →
      (∃ d, (DynamicClientRegistry.register_client { issuer := "iss" } 0 "c" "s" "t" {}).1
          = .error ⟨"invalid_redirect_uri", d⟩) ∧
      ((DynamicClientRegistry._validate_registration_token { issuer := "iss" } 0 "t" "c").1
          = true →
        (dget ({ issuer := "iss" } : RegState).registered_clients "c").isSome = true →
        ∃ d, (DynamicClientRegistry.update_client { issuer := "iss" } 0 "c" "t" {}).1
          = .error ⟨"invalid_redirect_uri", d⟩)) :=
  registry_redirect_invariant { issuer := "iss" } 0 "c" "s" "t" {} "c" "t"
    (by intro e he; simp at he)
